import Mathlib

/-
Verification development for the crunchbase-scraper repository.

The Python source (src/utils.py, src/models.py) is shallowly embedded below:
pure string/number manipulation becomes Lean functions on String / List Char,
Python float arithmetic on the exactly-representable decimal literals the code
handles is modelled by exact rationals (ℚ), Python `None` becomes `Option`,
and the external browser "page query" capability consumed by the extractors is
modelled as explicit function-valued parameters / environment records.
-/

namespace CB

/-! ### Python string primitives -/

/-- Whitespace characters recognised by Python `str.strip` (ASCII fragment). -/
def isPySpace (c : Char) : Bool :=
  c == ' ' || c == '\t' || c == '\n' || c == '\r' || c == '\x0b' || c == '\x0c'

/-- Strip trailing whitespace from a character list (Python `str.rstrip`). -/
def rstripL (l : List Char) : List Char :=
  (l.reverse.dropWhile isPySpace).reverse

/-- Strip leading and trailing whitespace (Python `str.strip`). -/
def pyStripL (l : List Char) : List Char :=
  rstripL (l.dropWhile isPySpace)

/-- Python `str.strip` on `String`. -/
def pyStrip (s : String) : String :=
  String.mk (pyStripL s.toList)

/-- Python `str.lower` on character lists (ASCII case mapping). -/
def pyLowerL (l : List Char) : List Char :=
  l.map Char.toLower

/-- Python `str.lower` on `String`. -/
def pyLower (s : String) : String :=
  String.mk (pyLowerL s.toList)

/-- Does `p` occur as a prefix of `l`? (Python `str.startswith`). -/
def startsWithL : List Char → List Char → Bool
  | [], _ => true
  | _ :: _, [] => false
  | p :: ps, c :: cs => p == c && startsWithL ps cs

/-- Replace the first occurrence of `pat` in a list by `rep`
(Python `str.replace(pat, rep, 1)`). -/
def replaceFirstL (l pat rep : List Char) : List Char :=
  match l with
  | [] => []
  | c :: rest =>
    if startsWithL pat (c :: rest) then rep ++ (c :: rest).drop pat.length
    else c :: replaceFirstL rest pat rep

/-- Split on a (non-empty) separator pattern, keeping empty parts, with fuel
for structural termination (Python `str.split(sep)`). -/
def splitOnAuxL (pat : List Char) : Nat → List Char → List Char → List (List Char)
  | _, [], acc => [acc.reverse]
  | 0, l, acc => [acc.reverse ++ l]
  | fuel + 1, c :: rest, acc =>
    if !pat.isEmpty && startsWithL pat (c :: rest) then
      acc.reverse :: splitOnAuxL pat fuel ((c :: rest).drop pat.length) []
    else splitOnAuxL pat fuel rest (c :: acc)

/-- Split a character list on a separator pattern (Python `str.split(sep)`). -/
def splitOnL (l pat : List Char) : List (List Char) :=
  splitOnAuxL pat (l.length + 1) l []

/-- Does the (non-empty) substring `sub` occur anywhere in `s`
(Python `sub in s`)? -/
def strContainsSub (s sub : String) : Bool :=
  (splitOnL s.toList sub.toList).length > 1

/-- Remove every occurrence of `sub` from `s` (Python `s.replace(sub, '')`). -/
def removeAllSub (s sub : String) : String :=
  String.mk (splitOnL s.toList sub.toList).flatten

/-- Numeric value of a list of ASCII digit characters. -/
def digitsToNat (l : List Char) : Nat :=
  l.foldl (fun acc c => acc * 10 + (c.toNat - '0'.toNat)) 0

/-- Exponent tail of a Python float literal: empty, or `e`/`E` followed by an
optional sign and a non-empty digit run consuming the rest of the input. -/
def readExp : List Char → Option ℤ
  | [] => some 0
  | c :: r =>
    if c == 'e' || c == 'E' then
      let signAndRest : ℤ × List Char :=
        match r with
        | '+' :: t => (1, t)
        | '-' :: t => (-1, t)
        | t => (1, t)
      let ds := signAndRest.2.takeWhile Char.isDigit
      let r3 := signAndRest.2.dropWhile Char.isDigit
      if ds.isEmpty || !r3.isEmpty then none
      else some (signAndRest.1 * (digitsToNat ds : ℤ))
    else none

/-- Mantissa and exponent to an exact rational value. -/
def floatVal (sign : ℚ) (ip fp : List Char) (e : ℤ) : ℚ :=
  sign * ((digitsToNat ip : ℚ) + (digitsToNat fp : ℚ) / (10 : ℚ) ^ fp.length) * (10 : ℚ) ^ e

/-- Model of Python `float(str)` on finite decimal literals, returning the exact
rational value: optional surrounding whitespace and sign, digits with an optional
decimal point and an optional `e`/`E` exponent.  The special spellings `inf`,
`infinity`, `nan` and underscore digit separators accepted by CPython are outside
the fragment this program's inputs exercise and are not modelled. -/
def pyFloat? (s : String) : Option ℚ :=
  let cs0 := pyStripL s.toList
  let signAndRest : ℚ × List Char :=
    match cs0 with
    | '+' :: r => (1, r)
    | '-' :: r => (-1, r)
    | r => (1, r)
  let cs := signAndRest.2
  let ip := cs.takeWhile Char.isDigit
  let r1 := cs.dropWhile Char.isDigit
  match r1 with
  | '.' :: r2 =>
    let fp := r2.takeWhile Char.isDigit
    let r3 := r2.dropWhile Char.isDigit
    if ip.isEmpty && fp.isEmpty then none
    else
      match readExp r3 with
      | none => none
      | some e => some (floatVal signAndRest.1 ip fp e)
  | _ =>
    if ip.isEmpty then none
    else
      match readExp r1 with
      | none => none
      | some e => some (floatVal signAndRest.1 ip [] e)

/-- Model of Python `int(str)`: optional surrounding whitespace, optional sign,
then a non-empty all-digit run. -/
def pyInt? (s : String) : Option ℤ :=
  let cs0 := pyStripL s.toList
  let signAndRest : ℤ × List Char :=
    match cs0 with
    | '+' :: r => (1, r)
    | '-' :: r => (-1, r)
    | r => (1, r)
  let cs := signAndRest.2
  if !cs.isEmpty && cs.all Char.isDigit then some (signAndRest.1 * (digitsToNat cs : ℤ))
  else none

/-! ### Currency Normalizer (src/utils.py lines 19-105, 349-361) -/

/-- The `CURRENCY_MULTIPLIERS` table, in Python dict insertion order (the
values are Python `int`s). -/
def CURRENCY_MULTIPLIERS : List (String × ℕ) :=
  [("K", 1000), ("M", 1000000), ("B", 1000000000)]

/-- The `CURRENCY_SYMBOLS` table, in Python dict insertion order. -/
def CURRENCY_SYMBOLS : List (String × String) :=
  [("$", "USD"), ("€", "EUR"), ("£", "GBP"), ("¥", "JPY"), ("CN¥", "CNY"),
   ("₹", "INR"), ("A$", "AUD"), ("C$", "CAD"), ("HK$", "HKD"), ("₣", "CHF")]

/-- The sentinel strings rejected by `parse_currency_amount`. -/
def SENTINELS : List String := ["n/a", "unknown", "--"]

/-- The symbol loop of `detect_currency`: first table entry whose symbol starts
the string wins; the match is removed (first occurrence) and the rest stripped. -/
def dcLoop : List (String × String) → List Char → String × List Char
  | [], s => ("USD", s)
  | (sym, code) :: rest, s =>
    if startsWithL sym.toList s then (code, pyStripL (replaceFirstL s sym.toList []))
    else dcLoop rest s

/-- Embedding of `detect_currency` (src/utils.py lines 47-57). -/
def detect_currency (amount_str : String) : String × String :=
  let p := dcLoop CURRENCY_SYMBOLS (pyStripL amount_str.toList)
  (p.1, String.mk p.2)

/-- The multiplier loop of `parse_currency_amount`: the first table suffix that
occurs anywhere in the string (Python `suffix in cleaned_amount`) is selected,
every occurrence is removed and the result stripped; `break` stops the scan. -/
def emLoop : List (String × ℕ) → String → ℕ × String
  | [], s => (1, s)
  | (suf, mult) :: rest, s =>
    if strContainsSub s suf then (mult, pyStrip (removeAllSub s suf))
    else emLoop rest s

/-- Multiplier extraction over the `CURRENCY_MULTIPLIERS` table. -/
def extractMultiplier (s : String) : ℕ × String :=
  emLoop CURRENCY_MULTIPLIERS s

/-- The string pipeline of `parse_currency_amount`: currency-symbol removal,
comma removal and stripping, then multiplier extraction; yields the multiplier
and the residue string handed to `float(...)`. -/
def parseResidue (amount_str : String) : ℕ × String :=
  extractMultiplier (pyStrip (removeAllSub (detect_currency amount_str).2 ","))

/-- Embedding of `parse_currency_amount` (src/utils.py lines 59-105).  The
`forex_python` `CurrencyRates().convert` network call is the external
collaborator; it is passed in as `convert`, with `none` modelling its failure
(the swallowed exception that makes the whole parse return `None`). -/
def parse_currency_amount (convert : String → String → ℚ → Option ℚ)
    (amount_str : String) (target_currency : String) : Option ℚ :=
  if amount_str == "" || SENTINELS.contains (pyLower amount_str) then none
  else
    match pyFloat? (parseResidue amount_str).2 with
    | none => none
    | some x =>
      if (detect_currency amount_str).1 == target_currency then
        some (x * ((parseResidue amount_str).1 : ℚ))
      else convert (detect_currency amount_str).1 target_currency
        (x * ((parseResidue amount_str).1 : ℚ))

/-- A conversion capability that always fails (models the network lookup
raising, e.g. no connectivity). -/
def noConvert : String → String → ℚ → Option ℚ := fun _ _ _ => none

/-- A conversion capability applying a fixed rate table, for witnesses. -/
def fixedRate (r : ℚ) : String → String → ℚ → Option ℚ := fun _ _ a => some (r * a)

/-! ### format_currency (src/utils.py lines 349-361) -/

/-- Decimal digit characters of a natural number (no leading zeros, `"0"` for 0). -/
def natDigitsAux : Nat → Nat → List Char
  | 0, _ => []
  | _ + 1, 0 => []
  | fuel + 1, n => natDigitsAux fuel (n / 10) ++ [Nat.digitChar (n % 10)]

/-- Render a natural number in decimal. -/
def natDigits (n : Nat) : String :=
  if n == 0 then "0" else String.mk (natDigitsAux (n + 1) n)

/-- Round-half-to-even on exact rationals, the rounding CPython fixed-point
formatting applies. -/
def roundHalfEven (x : ℚ) : ℤ :=
  let f := Int.floor x
  let r := x - (f : ℚ)
  if r < 1 / 2 then f
  else if 1 / 2 < r then f + 1
  else if f % 2 == 0 then f else f + 1

/-- Model of the f-string `f"{x:.1f}"` on exact rationals: exactly one digit
after the decimal point, round-half-even. -/
def fmtFixed1 (x : ℚ) : String :=
  let n := roundHalfEven (x * 10)
  let m := n.natAbs
  (if n < 0 then "-" else "") ++ natDigits (m / 10) ++ "." ++ String.mk [Nat.digitChar (m % 10)]

/-- Model of the f-string `f"{x:.0f}"` on exact rationals: no decimal point,
round-half-even. -/
def fmtFixed0 (x : ℚ) : String :=
  let n := roundHalfEven x
  (if n < 0 then "-" else "") ++ natDigits n.natAbs

/-- Embedding of `format_currency` (src/utils.py lines 349-361); the Python
`amount is None` guard becomes the `Option` pattern. -/
def format_currency (amount : Option ℚ) : String :=
  match amount with
  | none => ""
  | some a =>
    if (1000000000 : ℚ) ≤ a then fmtFixed1 (a / 1000000000) ++ "B"
    else if (1000000 : ℚ) ≤ a then fmtFixed1 (a / 1000000) ++ "M"
    else if (1000 : ℚ) ≤ a then fmtFixed1 (a / 1000) ++ "K"
    else fmtFixed0 a

/-! ### Computation rules for `parse_currency_amount`

The string-processing stages of the parser are fully computable by the kernel;
only the exact-rational arithmetic at the end is not, so the concrete-input
facts below are proved through these rules plus `norm_num`. -/

/-- Computation rule: exact rational value of `floatVal` from its digit runs. -/
theorem floatVal_eval (sign : ℚ) (ip fp : List Char) (e : ℤ) (i f : ℕ)
    (hi : digitsToNat ip = i) (hf : digitsToNat fp = f) :
    floatVal sign ip fp e = sign * ((i : ℚ) + (f : ℚ) / (10 : ℚ) ^ fp.length) * (10 : ℚ) ^ e := by
  unfold floatVal
  rw [hi, hf]

/-- Computation rule: a successful parse with matching source and target. -/
theorem parse_some_same (convert : String → String → ℚ → Option ℚ)
    (s target : String) (mult : ℕ) (residue : String) (x : ℚ)
    (hg : (s == "" || SENTINELS.contains (pyLower s)) = false)
    (h2 : parseResidue s = (mult, residue))
    (h3 : pyFloat? residue = some x)
    (h4 : ((detect_currency s).1 == target) = true) :
    parse_currency_amount convert s target = some (x * (mult : ℚ)) := by
  unfold parse_currency_amount
  rw [hg, if_neg Bool.false_ne_true, h2]
  simp only [h3, h4]
  exact if_pos trivial

/-- Computation rule: a successful numeric parse whose source currency differs
from the target hands the amount to the conversion capability. -/
theorem parse_converts (convert : String → String → ℚ → Option ℚ)
    (s target : String) (mult : ℕ) (residue : String) (x : ℚ)
    (hg : (s == "" || SENTINELS.contains (pyLower s)) = false)
    (h2 : parseResidue s = (mult, residue))
    (h3 : pyFloat? residue = some x)
    (h4 : ((detect_currency s).1 == target) = false) :
    parse_currency_amount convert s target =
      convert (detect_currency s).1 target (x * (mult : ℚ)) := by
  unfold parse_currency_amount
  rw [hg, if_neg Bool.false_ne_true, h2]
  simp only [h3, h4, Bool.false_eq_true, if_false]

/-- Computation rule: non-numeric residue makes the parse fail. -/
theorem parse_none_of_residue (convert : String → String → ℚ → Option ℚ)
    (s target : String)
    (h3 : pyFloat? (parseResidue s).2 = none) :
    parse_currency_amount convert s target = none := by
  unfold parse_currency_amount
  rw [h3]
  split <;> rfl

/-- Computation rule: the empty / sentinel guard makes the parse fail. -/
theorem parse_none_of_guard (convert : String → String → ℚ → Option ℚ)
    (s target : String)
    (hg : (s == "" || SENTINELS.contains (pyLower s)) = true) :
    parse_currency_amount convert s target = none := by
  unfold parse_currency_amount
  rw [hg, if_pos rfl]

/-! ### Supporting lemmas for the claims about the Currency Normalizer -/

/-- Exact value of the `"1.5"` residue. -/
theorem pyFloat_one_point_five : pyFloat? "1.5" = some (3 / 2) := by
  rw [show pyFloat? "1.5" = some (floatVal 1 ['1'] ['5'] 0) from rfl,
    floatVal_eval 1 ['1'] ['5'] 0 1 5 (by decide) (by decide)]
  norm_num

/-- Exact value of the `"5"` residue. -/
theorem pyFloat_five : pyFloat? "5" = some 5 := by
  rw [show pyFloat? "5" = some (floatVal 1 ['5'] [] 0) from rfl,
    floatVal_eval 1 ['5'] [] 0 5 0 (by decide) (by decide)]
  norm_num

/-- Exact value of the `"15"` residue. -/
theorem pyFloat_fifteen : pyFloat? "15" = some 15 := by
  rw [show pyFloat? "15" = some (floatVal 1 ['1', '5'] [] 0) from rfl,
    floatVal_eval 1 ['1', '5'] [] 0 15 0 (by decide) (by decide)]
  norm_num

/-- Exact value of the `"1500000"` residue. -/
theorem pyFloat_million_and_half : pyFloat? "1500000" = some 1500000 := by
  rw [show pyFloat? "1500000" = some (floatVal 1 "1500000".toList [] 0) from rfl,
    floatVal_eval 1 "1500000".toList [] 0 1500000 0 (by decide) (by decide)]
  norm_num

/-- Exact value of the `"2.5"` residue. -/
theorem pyFloat_two_point_five : pyFloat? "2.5" = some (5 / 2) := by
  rw [show pyFloat? "2.5" = some (floatVal 1 ['2'] ['5'] 0) from rfl,
    floatVal_eval 1 ['2'] ['5'] 0 2 5 (by decide) (by decide)]
  norm_num

/-- First multiplier table entry found by substring containment wins: `K`. -/
theorem extractMultiplier_K (s : String) (hK : strContainsSub s "K" = true) :
    extractMultiplier s = (1000, pyStrip (removeAllSub s "K")) := by
  unfold extractMultiplier CURRENCY_MULTIPLIERS
  simp only [emLoop, hK]
  simp

/-- Second multiplier table entry: `M`, tried only when no `K` occurs. -/
theorem extractMultiplier_M (s : String) (hK : strContainsSub s "K" = false)
    (hM : strContainsSub s "M" = true) :
    extractMultiplier s = (1000000, pyStrip (removeAllSub s "M")) := by
  unfold extractMultiplier CURRENCY_MULTIPLIERS
  simp only [emLoop, hK, hM]
  simp

/-- Third multiplier table entry: `B`, tried only when neither `K` nor `M`
occurs. -/
theorem extractMultiplier_B (s : String) (hK : strContainsSub s "K" = false)
    (hM : strContainsSub s "M" = false) (hB : strContainsSub s "B" = true) :
    extractMultiplier s = (1000000000, pyStrip (removeAllSub s "B")) := by
  unfold extractMultiplier CURRENCY_MULTIPLIERS
  simp only [emLoop, hK, hM, hB]
  simp

/-- No multiplier letter anywhere leaves the amount unscaled. -/
theorem extractMultiplier_none (s : String) (hK : strContainsSub s "K" = false)
    (hM : strContainsSub s "M" = false) (hB : strContainsSub s "B" = false) :
    extractMultiplier s = (1, s) := by
  unfold extractMultiplier CURRENCY_MULTIPLIERS
  simp only [emLoop, hK, hM, hB]
  simp

/-! ### Claim C2 -/

/-- Claim C2, counterexample: the claim says a multiplier letter that is not
trailing yields no multiplier, so `"M5"` (residue `"M5"` is not numeric) would
have to parse as absent; the code instead matches `M` by substring containment
anywhere, strips it, and returns 5 · 10⁶. -/
theorem c2_counterexample :
    parse_currency_amount noConvert "M5" "USD" = some 5000000 ∧
    (some (5000000 : ℚ) : Option ℚ) ≠ none := by
  constructor
  · rw [parse_some_same noConvert "M5" "USD" 1000000 "5" 5 (by decide) (by decide)
      pyFloat_five (by decide)]
    norm_num
  · simp

/-- Claim C2 (amended): `parse_currency_amount` strips thousands separators
(commas) and detects a magnitude suffix `K`=10³, `M`=10⁶, `B`=10⁹ by substring
containment in table order (the first multiplier letter occurring anywhere in
the string is used, not only a trailing one); every occurrence of that letter
is removed before numeric conversion and the multiplier is applied after.  In
particular `parse_amount("$1.5M") = 1 500 000` with no conversion applied
(USD source, USD target), and the non-trailing `"1M5"` still gets the `M`
multiplier, giving 15 · 10⁶. -/
theorem c2_amended_theorem :
    (∀ convert : String → String → ℚ → Option ℚ,
       parse_currency_amount convert "$1.5M" "USD" = some 1500000) ∧
    (∀ convert : String → String → ℚ → Option ℚ,
       parse_currency_amount convert "1,500,000" "USD" = some 1500000) ∧
    (∀ convert : String → String → ℚ → Option ℚ,
       parse_currency_amount convert "$2.5K" "USD" = some 2500) ∧
    (∀ convert : String → String → ℚ → Option ℚ,
       parse_currency_amount convert "1M5" "USD" = some 15000000) ∧
    (∀ s, strContainsSub s "K" = true →
       extractMultiplier s = (1000, pyStrip (removeAllSub s "K"))) ∧
    (∀ s, strContainsSub s "K" = false → strContainsSub s "M" = true →
       extractMultiplier s = (1000000, pyStrip (removeAllSub s "M"))) ∧
    (∀ s, strContainsSub s "K" = false → strContainsSub s "M" = false →
       strContainsSub s "B" = true →
       extractMultiplier s = (1000000000, pyStrip (removeAllSub s "B"))) ∧
    (∀ s, strContainsSub s "K" = false → strContainsSub s "M" = false →
       strContainsSub s "B" = false → extractMultiplier s = (1, s)) := by
  refine ⟨?_, ?_, ?_, ?_, extractMultiplier_K, extractMultiplier_M,
    extractMultiplier_B, extractMultiplier_none⟩
  · intro convert
    rw [parse_some_same convert "$1.5M" "USD" 1000000 "1.5" (3/2) (by decide) (by decide)
      pyFloat_one_point_five (by decide)]
    norm_num
  · intro convert
    rw [parse_some_same convert "1,500,000" "USD" 1 "1500000" 1500000 (by decide) (by decide)
      pyFloat_million_and_half (by decide)]
    norm_num
  · intro convert
    rw [parse_some_same convert "$2.5K" "USD" 1000 "2.5" (5/2) (by decide) (by decide)
      pyFloat_two_point_five (by decide)]
    norm_num
  · intro convert
    rw [parse_some_same convert "1M5" "USD" 1000000 "15" 15 (by decide) (by decide)
      pyFloat_fifteen (by decide)]
    norm_num

/-- Claim C2, witness: the amended theorem applied at concrete inputs. -/
theorem c2_witness :
    parse_currency_amount noConvert "$1.5M" "USD" = some 1500000 ∧
    extractMultiplier "2K" = (1000, pyStrip (removeAllSub "2K" "K")) := by
  exact ⟨c2_amended_theorem.1 noConvert, c2_amended_theorem.2.2.2.2.1 "2K" (by decide)⟩


/-! ### Claim C3 -/

/-- Claim C3: `parse_currency_amount` returns absent exactly on empty input,
the case-insensitive sentinels, non-numeric residue after symbol/comma/suffix
stripping, or a failed conversion lookup when the source currency differs from
the target; in the conversion-failure case the caller never receives a number
in the wrong currency. -/
theorem c3_theorem :
    (∀ (convert : String → String → ℚ → Option ℚ) (s target : String),
      parse_currency_amount convert s target = none ↔
        (s = "" ∨ pyLower s ∈ SENTINELS ∨ pyFloat? (parseResidue s).2 = none ∨
         (∃ x, pyFloat? (parseResidue s).2 = some x ∧ (detect_currency s).1 ≠ target ∧
            convert (detect_currency s).1 target (x * ((parseResidue s).1 : ℚ)) = none))) ∧
    parse_currency_amount noConvert "n/a" "USD" = none ∧
    parse_currency_amount noConvert "N/A" "USD" = none ∧
    parse_currency_amount noConvert "" "USD" = none ∧
    parse_currency_amount noConvert "abc" "USD" = none ∧
    parse_currency_amount noConvert "€5" "USD" = none := by
  refine ⟨?_, parse_none_of_guard _ _ _ (by decide), parse_none_of_guard _ _ _ (by decide),
    parse_none_of_guard _ _ _ (by decide), parse_none_of_residue _ _ _ (by decide), ?_⟩
  · intro convert s target
    by_cases hg : (s == "" || SENTINELS.contains (pyLower s)) = true
    · rw [parse_none_of_guard convert s target hg]
      have hmem : s = "" ∨ pyLower s ∈ SENTINELS := by
        rcases Bool.or_eq_true_iff.mp hg with h | h
        · exact Or.inl (by simpa using h)
        · exact Or.inr (by simpa using h)
      constructor
      · intro _
        rcases hmem with h | h
        · exact Or.inl h
        · exact Or.inr (Or.inl h)
      · intro _
        rfl
    · have hg' : (s == "" || SENTINELS.contains (pyLower s)) = false :=
        Bool.not_eq_true _ ▸ Bool.eq_false_iff.mpr hg
      have hne : ¬(s = "" ∨ pyLower s ∈ SENTINELS) := by
        intro h
        apply hg
        rcases h with h | h
        · simp [h]
        · simp [h]
      cases hf : pyFloat? (parseResidue s).2 with
      | none =>
        rw [parse_none_of_residue convert s target hf]
        simp [hf]
      | some x =>
        by_cases ht : ((detect_currency s).1 == target) = true
        · rw [parse_some_same convert s target (parseResidue s).1 (parseResidue s).2 x hg'
            Prod.mk.eta.symm hf ht]
          have hteq : (detect_currency s).1 = target := by simpa using ht
          constructor
          · intro h
            exact absurd h (Option.some_ne_none _)
          · intro h
            exfalso
            rcases h with h | h | h | ⟨x', hx', hne', _⟩
            · exact hne (Or.inl h)
            · exact hne (Or.inr h)
            · exact Option.some_ne_none _ h
            · exact hne' hteq
        · have ht' : ((detect_currency s).1 == target) = false :=
            Bool.eq_false_iff.mpr ht
          rw [parse_converts convert s target (parseResidue s).1 (parseResidue s).2 x hg'
            Prod.mk.eta.symm hf ht']
          have htne : (detect_currency s).1 ≠ target := by simpa using ht
          constructor
          · intro hc
            exact Or.inr (Or.inr (Or.inr ⟨x, rfl, htne, hc⟩))
          · intro h
            rcases h with h | h | h | ⟨x', hx', _, hc⟩
            · exact absurd (Or.inl h) hne
            · exact absurd (Or.inr h) hne
            · exact absurd h (Option.some_ne_none _)
            · obtain rfl := Option.some.inj hx'
              exact hc
  · rw [parse_converts noConvert "€5" "USD" 1 "5" 5 (by decide) (by decide)
      pyFloat_five (by decide)]
    rfl

/-- Claim C3, witness: the characterisation applied at a concrete failing
conversion — the lookup fails and the caller receives absent, never the
unconverted figure. -/
theorem c3_witness :
    parse_currency_amount noConvert "£7" "USD" = none := by
  apply (c3_theorem.1 noConvert "£7" "USD").mpr
  refine Or.inr (Or.inr (Or.inr ⟨7, ?_, by decide, rfl⟩))
  rw [show pyFloat? (parseResidue "£7").2 = pyFloat? "7" from rfl,
    show pyFloat? "7" = some (floatVal 1 ['7'] [] 0) from rfl,
    floatVal_eval 1 ['7'] [] 0 7 0 (by decide) (by decide)]
  norm_num

/-! ### Claim C4 -/

/-- Pushing `rstrip` past a leading non-space character. -/
theorem rstripL_cons (a : Char) (l : List Char) (h : isPySpace a = false) :
    rstripL (a :: l) = a :: rstripL l := by
  unfold rstripL
  rw [List.reverse_cons, List.dropWhile_append]
  by_cases he : (l.reverse.dropWhile isPySpace).isEmpty
  · rw [if_pos he]
    rw [List.isEmpty_iff] at he
    rw [he]
    simp [List.dropWhile, h]
  · rw [if_neg he]
    simp

/-- Stripping a string that starts with `CN¥` keeps the three symbol characters
in place. -/
theorem pyStripL_cny (l : List Char) :
    pyStripL ('C' :: 'N' :: '¥' :: l) = 'C' :: 'N' :: '¥' :: rstripL l := by
  unfold pyStripL
  rw [List.dropWhile_cons_of_neg (by decide)]
  rw [rstripL_cons _ _ (by decide), rstripL_cons _ _ (by decide), rstripL_cons _ _ (by decide)]

/-- When no symbol in the table starts the string, the loop falls through to
the USD default with the string untouched. -/
theorem dcLoop_default (syms : List (String × String)) (l : List Char)
    (h : ∀ p ∈ syms, startsWithL p.1.toList l = false) :
    dcLoop syms l = ("USD", l) := by
  induction syms with
  | nil => rfl
  | cons p rest ih =>
    obtain ⟨sym, code⟩ := p
    simp only [dcLoop]
    rw [h (sym, code) (List.mem_cons_self _ _)]
    simp only [Bool.false_eq_true, if_false]
    exact ih fun q hq => h q (List.mem_cons_of_mem _ hq)

/-- Claim C4, counterexample: for a string starting with no recognised symbol
the claim demands USD with the string unchanged, but `detect_currency` strips
surrounding whitespace before matching and returns the stripped string. -/
theorem c4_counterexample :
    detect_currency "100 " = ("USD", "100") ∧ ("100" : String) ≠ "100 " := by
  constructor
  · decide
  · decide

/-- Claim C4 (amended): symbol detection scans the fixed table in insertion
order, and on this table no symbol shadows another, so every string whose
stripped form begins with `CN¥` is detected as CNY (never the generic ¥/JPY);
a string starting with no recognised symbol yields USD with the string
unchanged apart from surrounding-whitespace stripping. -/
theorem c4_amended_theorem :
    (∀ s : String, (detect_currency ("CN¥" ++ s)).1 = "CNY") ∧
    (∀ s : String,
      (∀ p ∈ CURRENCY_SYMBOLS, startsWithL p.1.toList (pyStripL s.toList) = false) →
      detect_currency s = ("USD", pyStrip s)) := by
  constructor
  · intro s
    obtain ⟨l⟩ := s
    show (detect_currency ("CN¥" ++ String.mk l)).1 = "CNY"
    have htl : ("CN¥" ++ String.mk l).toList = 'C' :: 'N' :: '¥' :: l := rfl
    simp only [detect_currency, htl, pyStripL_cny]
    rfl
  · intro s h
    simp only [detect_currency, dcLoop_default CURRENCY_SYMBOLS (pyStripL s.toList) h]
    rfl

/-- Claim C4, witness: the amended theorem applied at concrete inputs. -/
theorem c4_witness :
    (detect_currency ("CN¥" ++ "100K")).1 = "CNY" ∧
    detect_currency "100" = ("USD", pyStrip "100") :=
  ⟨c4_amended_theorem.1 "100K", c4_amended_theorem.2 "100" (by decide)⟩

/-! ### Claim C5 -/

/-- Half-even rounding of an integer value is the integer itself. -/
theorem roundHalfEven_intCast (n : ℤ) : roundHalfEven ((n : ℚ)) = n := by
  simp only [roundHalfEven, Int.floor_intCast]
  norm_num

/-- Computation rule for the one-decimal formatter. -/
theorem fmtFixed1_of (x : ℚ) (n : ℤ) (h : roundHalfEven (x * 10) = n) :
    fmtFixed1 x = (if n < 0 then "-" else "") ++ natDigits (n.natAbs / 10) ++ "." ++
      String.mk [Nat.digitChar (n.natAbs % 10)] := by
  simp only [fmtFixed1, h]

/-- Computation rule for the zero-decimal formatter. -/
theorem fmtFixed0_of (x : ℚ) (n : ℤ) (h : roundHalfEven x = n) :
    fmtFixed0 x = (if n < 0 then "-" else "") ++ natDigits n.natAbs := by
  simp only [fmtFixed0, h]

/-- Digit characters produced by the formatter are decimal digits. -/
theorem digitChar_isDigit (k : ℕ) (h : k < 10) : (Nat.digitChar k).isDigit = true := by
  interval_cases k <;> decide

/-- Claim C5: `format_currency` renders a magnitude into K/M/B shorthand with
exactly one decimal place for values at or above each threshold, renders
values under 1 000 as a rounded integer string, and renders absent input as
the empty string; in particular 1.5·10⁹ ↦ `"1.5B"`, 1.5·10⁶ ↦ `"1.5M"`,
2500 ↦ `"2.5K"`, 500 ↦ `"500"` and absent ↦ `""`. -/
theorem c5_theorem :
    format_currency (some 1500000000) = "1.5B" ∧
    format_currency (some 1500000) = "1.5M" ∧
    format_currency (some 2500) = "2.5K" ∧
    format_currency (some 500) = "500" ∧
    format_currency none = "" ∧
    (∀ a : ℚ, 1000000000 ≤ a →
       format_currency (some a) = fmtFixed1 (a / 1000000000) ++ "B") ∧
    (∀ a : ℚ, 1000000 ≤ a → a < 1000000000 →
       format_currency (some a) = fmtFixed1 (a / 1000000) ++ "M") ∧
    (∀ a : ℚ, 1000 ≤ a → a < 1000000 →
       format_currency (some a) = fmtFixed1 (a / 1000) ++ "K") ∧
    (∀ a : ℚ, a < 1000 → format_currency (some a) = fmtFixed0 a) ∧
    (∀ x : ℚ, ∃ pre : String, ∃ d : Char,
       fmtFixed1 x = pre ++ "." ++ String.mk [d] ∧ d.isDigit = true) := by
  have hB : ∀ a : ℚ, 1000000000 ≤ a →
      format_currency (some a) = fmtFixed1 (a / 1000000000) ++ "B" := by
    intro a h
    simp only [format_currency]
    rw [if_pos h]
  have hM : ∀ a : ℚ, 1000000 ≤ a → a < 1000000000 →
      format_currency (some a) = fmtFixed1 (a / 1000000) ++ "M" := by
    intro a h1 h2
    simp only [format_currency]
    rw [if_neg (by linarith), if_pos h1]
  have hK : ∀ a : ℚ, 1000 ≤ a → a < 1000000 →
      format_currency (some a) = fmtFixed1 (a / 1000) ++ "K" := by
    intro a h1 h2
    simp only [format_currency]
    rw [if_neg (by linarith), if_neg (by linarith), if_pos h1]
  have h0 : ∀ a : ℚ, a < 1000 → format_currency (some a) = fmtFixed0 a := by
    intro a h
    simp only [format_currency]
    rw [if_neg (by linarith), if_neg (by linarith), if_neg (by linarith)]
  refine ⟨?_, ?_, ?_, ?_, rfl, hB, hM, hK, h0, ?_⟩
  · rw [hB 1500000000 (by norm_num),
      show (1500000000 : ℚ) / 1000000000 = 3 / 2 by norm_num,
      fmtFixed1_of (3 / 2) 15
        (by rw [show (3 : ℚ) / 2 * 10 = ((15 : ℤ) : ℚ) by norm_num, roundHalfEven_intCast])]
    decide
  · rw [hM 1500000 (by norm_num) (by norm_num),
      show (1500000 : ℚ) / 1000000 = 3 / 2 by norm_num,
      fmtFixed1_of (3 / 2) 15
        (by rw [show (3 : ℚ) / 2 * 10 = ((15 : ℤ) : ℚ) by norm_num, roundHalfEven_intCast])]
    decide
  · rw [hK 2500 (by norm_num) (by norm_num),
      show (2500 : ℚ) / 1000 = 5 / 2 by norm_num,
      fmtFixed1_of (5 / 2) 25
        (by rw [show (5 : ℚ) / 2 * 10 = ((25 : ℤ) : ℚ) by norm_num, roundHalfEven_intCast])]
    decide
  · rw [h0 500 (by norm_num),
      fmtFixed0_of 500 500
        (by rw [show (500 : ℚ) = ((500 : ℤ) : ℚ) by norm_num, roundHalfEven_intCast])]
    decide
  · intro x
    refine ⟨(if roundHalfEven (x * 10) < 0 then "-" else "") ++
      natDigits ((roundHalfEven (x * 10)).natAbs / 10),
      Nat.digitChar ((roundHalfEven (x * 10)).natAbs % 10), rfl,
      digitChar_isDigit _ (Nat.mod_lt _ (by norm_num))⟩

/-- Claim C5, witness: the threshold branches applied at concrete inputs. -/
theorem c5_witness :
    format_currency (some 2500000000) = fmtFixed1 ((2500000000 : ℚ) / 1000000000) ++ "B" ∧
    format_currency (some 700) = fmtFixed0 700 :=
  ⟨c5_theorem.2.2.2.2.2.1 2500000000 (by norm_num),
   c5_theorem.2.2.2.2.2.2.2.2.1 700 (by norm_num)⟩

/-! ### Name Matcher (src/utils.py lines 107-187)

`get_string_similarity` wraps `difflib.SequenceMatcher(None, a.lower(),
b.lower()).ratio()`.  The matcher below embeds CPython's `difflib` algorithm
with `isjunk = None`: `b2j` drops autojunk-popular elements (only possible for
`b` of length ≥ 200), `find_longest_match` runs the chained `j2len` dynamic
programme and then the two non-junk extension loops (the junk extension loops
never fire because the junk set is empty), and the matching blocks are summed
recursively.  The float ratio `2.0 * matches / total` is modelled exactly
in ℚ. -/

/-- Number of occurrences of a character in `b`. -/
def bCount (b : List Char) (c : Char) : Nat :=
  (b.filter (fun x => x == c)).length

/-- The autojunk rule of `SequenceMatcher.__chain_b`: for `b` of length ≥ 200,
elements occurring more than `len(b) // 100 + 1` times are dropped from `b2j`. -/
def isPopular (b : List Char) (c : Char) : Bool :=
  decide (200 ≤ b.length) && decide (b.length / 100 + 1 < bCount b c)

/-- The `b2j` index lists: positions of `c` in `b`, ascending, with popular
elements removed. -/
def b2j (b : List Char) (c : Char) : List Nat :=
  if isPopular b c then []
  else (List.range b.length).filter (fun j => b.getD j ' ' == c)

/-- Lookup in the `j2len` association list (`dict.get(j, 0)`). -/
def j2lookup (l : List (Nat × Nat)) (j : Nat) : Nat :=
  match l.find? (fun p => p.1 == j) with
  | some p => p.2
  | none => 0

/-- Inner loop of `find_longest_match` over the `b2j` positions of `a[i]`:
`continue` below `blo`, `break` at `bhi`, chain length `k = j2len[j-1] + 1`,
best updated on strict improvement. -/
def flmInner (blo bhi i : Nat) (j2len : List (Nat × Nat)) :
    List Nat → List (Nat × Nat) → Nat × Nat × Nat → List (Nat × Nat) × (Nat × Nat × Nat)
  | [], acc, best => (acc, best)
  | j :: js, acc, best =>
    if j < blo then flmInner blo bhi i j2len js acc best
    else if bhi ≤ j then (acc, best)
    else
      let k := (if j == 0 then 0 else j2lookup j2len (j - 1)) + 1
      let best' := if best.2.2 < k then (i + 1 - k, j + 1 - k, k) else best
      flmInner blo bhi i j2len js ((j, k) :: acc) best'

/-- Outer loop of `find_longest_match` over `i ∈ [alo, ahi)`. -/
def flmOuter (a b : List Char) (blo bhi : Nat) :
    List Nat → List (Nat × Nat) → Nat × Nat × Nat → Nat × Nat × Nat
  | [], _, best => best
  | i :: irest, j2len, best =>
    let st := flmInner blo bhi i j2len (b2j b (a.getD i ' ')) [] best
    flmOuter a b blo bhi irest st.1 st.2

/-- The left extension loop of `find_longest_match` (no junk, so the guard is
just character equality inside the window). -/
def extLeft (a b : List Char) (alo blo : Nat) : Nat → Nat → Nat → Nat → Nat × Nat × Nat
  | 0, i, j, k => (i, j, k)
  | fuel + 1, i, j, k =>
    if alo < i && blo < j && (a.getD (i - 1) ' ' == b.getD (j - 1) ' ') then
      extLeft a b alo blo fuel (i - 1) (j - 1) (k + 1)
    else (i, j, k)

/-- The right extension loop of `find_longest_match`. -/
def extRight (a b : List Char) (ahi bhi : Nat) : Nat → Nat → Nat → Nat → Nat
  | 0, _, _, k => k
  | fuel + 1, i, j, k =>
    if i + k < ahi && j + k < bhi && (a.getD (i + k) ' ' == b.getD (j + k) ' ') then
      extRight a b ahi bhi fuel i j (k + 1)
    else k

/-- Embedding of `SequenceMatcher.find_longest_match` on the window
`a[alo:ahi]`, `b[blo:bhi]`. -/
def find_longest_match (a b : List Char) (alo ahi blo bhi : Nat) : Nat × Nat × Nat :=
  let best0 := flmOuter a b blo bhi ((List.range ahi).drop alo) [] (alo, blo, 0)
  let bl := extLeft a b alo blo best0.1 best0.1 best0.2.1 best0.2.2
  let k2 := extRight a b ahi bhi ahi bl.1 bl.2.1 bl.2.2
  (bl.1, bl.2.1, k2)

/-- Total size of the matching blocks (`get_matching_blocks` recursion,
summed — all `ratio` uses).  Fuel bounds the recursion depth; `a.length + 1`
always suffices since each sub-window is strictly smaller. -/
def matchesSum (a b : List Char) : Nat → Nat → Nat → Nat → Nat → Nat
  | 0, _, _, _, _ => 0
  | fuel + 1, alo, ahi, blo, bhi =>
    let m := find_longest_match a b alo ahi blo bhi
    if m.2.2 == 0 then 0
    else
      (if alo < m.1 && blo < m.2.1 then matchesSum a b fuel alo m.1 blo m.2.1 else 0) +
      m.2.2 +
      (if m.1 + m.2.2 < ahi && m.2.1 + m.2.2 < bhi then
         matchesSum a b fuel (m.1 + m.2.2) ahi (m.2.1 + m.2.2) bhi
       else 0)

/-- Matched total and combined length, the two integers entering `ratio`. -/
def simParts (a b : List Char) : Nat × Nat :=
  (matchesSum a b (a.length + 1) 0 a.length 0 b.length, a.length + b.length)

/-- `SequenceMatcher.ratio`: `2M / T`, and 1 when both sequences are empty. -/
def ratioOf (a b : List Char) : ℚ :=
  if (simParts a b).2 == 0 then 1
  else 2 * ((simParts a b).1 : ℚ) / ((simParts a b).2 : ℚ)

/-- Embedding of `get_string_similarity` (src/utils.py lines 107-109). -/
def get_string_similarity (a b : String) : ℚ :=
  ratioOf (pyLowerL a.toList) (pyLowerL b.toList)

/-- Outcome of the decision part of `analyze_search_results`: an auto-accepted
match, entry into the interactive disambiguation loop (the code then blocks on
`input()`), or the no-match return `(None, None)`. -/
inductive MatchOutcome where
  | found (name url : String)
  | prompt
  | noMatch
deriving DecidableEq

/-- The 0.8 auto-accept threshold (`NAME_SIMILARITY_THRESHOLD`). -/
def NAME_SIMILARITY_THRESHOLD : ℚ := 4 / 5

/-- The best-match loop of `analyze_search_results` (src/utils.py lines
153-161): running best replaced only on strictly greater similarity, starting
from `best_match = None`, `best_similarity = 0`. -/
def bestLoop (search_name : String) :
    List (String × String) → Option (String × String) → ℚ → Option (String × String) × ℚ
  | [], bm, bs => (bm, bs)
  | (name, url) :: rest, bm, bs =>
    if bs < get_string_similarity search_name name then
      bestLoop search_name rest (some (name, url)) (get_string_similarity search_name name)
    else bestLoop search_name rest bm bs

/-- Decision part of `analyze_search_results` (src/utils.py lines 142-187):
empty results and a never-recorded best both return `(None, None)`; a best at
or above the threshold is auto-accepted; otherwise the code enters the
interactive disambiguation loop. -/
def analyze_core (results : List (String × String)) (search_name : String) : MatchOutcome :=
  if results.isEmpty then .noMatch
  else
    match bestLoop search_name results none 0 with
    | (some p, bs) => if NAME_SIMILARITY_THRESHOLD ≤ bs then .found p.1 p.2 else .prompt
    | (none, _) => .noMatch

/-- The interactive `while True` disambiguation loop, driven by the stream of
operator inputs: `'s'` skips (returns `(None, None)`), a number in range
selects that result, anything else re-prompts.  An exhausted stream models the
loop blocked forever awaiting `input()` and is returned as `none`. -/
def disambiguate (results : List (String × String)) : List String → Option (Option (String × String))
  | [] => none
  | choice :: rest =>
    if pyLower (pyStrip choice) == "s" then some none
    else
      match pyInt? (pyLower (pyStrip choice)) with
      | some idx =>
        if 0 ≤ idx - 1 ∧ idx - 1 < (results.length : ℤ) then some (results[(idx - 1).toNat]?)
        else disambiguate results rest
      | none => disambiguate results rest

/-- Embedding of `analyze_search_results`: `some r` is a normal return (with
`r = none` for the `(None, None)` signal), `none` means the call is blocked on
operator input. -/
def analyze_search_results (inputs : List String) (results : List (String × String))
    (search_name : String) : Option (Option (String × String)) :=
  match analyze_core results search_name with
  | .found n u => some (some (n, u))
  | .prompt => disambiguate results inputs
  | .noMatch => some none

/-! ### Supporting lemmas for the Name Matcher claims -/

/-- Ratio value from the integer match statistics. -/
theorem get_string_similarity_eval (a b : String) (m t : Nat)
    (h : simParts (pyLowerL a.toList) (pyLowerL b.toList) = (m, t)) (ht : t ≠ 0) :
    get_string_similarity a b = 2 * (m : ℚ) / (t : ℚ) := by
  simp only [get_string_similarity, ratioOf, h]
  rw [if_neg (by simpa using ht)]

/-- The best-match loop leaves its state alone when nothing beats it. -/
theorem bestLoop_all_le (q : String) :
    ∀ (rs : List (String × String)) (bm : Option (String × String)) (bs : ℚ),
      (∀ p ∈ rs, get_string_similarity q p.1 ≤ bs) → bestLoop q rs bm bs = (bm, bs)
  | [], _, _, _ => rfl
  | (name, url) :: rest, bm, bs, h => by
    simp only [bestLoop]
    rw [if_neg (not_lt.mpr (h (name, url) (List.mem_cons_self _ _)))]
    exact bestLoop_all_le q rest bm bs fun p hp => h p (List.mem_cons_of_mem _ hp)

/-- When some candidate beats the running best, the loop returns the first
candidate whose similarity strictly exceeds everything before it and is not
exceeded later: the first-seen maximum. -/
theorem bestLoop_split (q : String) :
    ∀ (rs : List (String × String)) (bm : Option (String × String)) (bs : ℚ),
      (∃ p ∈ rs, bs < get_string_similarity q p.1) →
      ∃ l1 p l2, rs = l1 ++ p :: l2 ∧
        bestLoop q rs bm bs = (some p, get_string_similarity q p.1) ∧
        bs < get_string_similarity q p.1 ∧
        (∀ x ∈ l1, get_string_similarity q x.1 < get_string_similarity q p.1) ∧
        (∀ y ∈ l2, get_string_similarity q y.1 ≤ get_string_similarity q p.1)
  | [], _, _, h => absurd h (by simp)
  | (name, url) :: rest, bm, bs, h => by
    by_cases hc : bs < get_string_similarity q name
    · by_cases h2 : ∃ p ∈ rest, get_string_similarity q name < get_string_similarity q p.1
      · obtain ⟨l1, p, l2, heq, hbl, hlt, hl1, hl2⟩ :=
          bestLoop_split q rest (some (name, url)) (get_string_similarity q name) h2
        refine ⟨(name, url) :: l1, p, l2, by rw [heq]; rfl, ?_, lt_trans hc hlt, ?_, hl2⟩
        · simp only [bestLoop]
          rw [if_pos hc]
          exact hbl
        · intro x hx
          rcases List.mem_cons.mp hx with rfl | hx
          · exact hlt
          · exact hl1 x hx
      · push_neg at h2
        refine ⟨[], (name, url), rest, rfl, ?_, hc, by simp, h2⟩
        simp only [bestLoop]
        rw [if_pos hc]
        exact bestLoop_all_le q rest (some (name, url)) (get_string_similarity q name) h2
    · obtain ⟨p0, hp0mem, hp0⟩ := h
      have hp0' : ∃ p ∈ rest, bs < get_string_similarity q p.1 := by
        rcases List.mem_cons.mp hp0mem with rfl | hmem
        · exact absurd hp0 hc
        · exact ⟨p0, hmem, hp0⟩
      obtain ⟨l1, p, l2, heq, hbl, hlt, hl1, hl2⟩ := bestLoop_split q rest bm bs hp0'
      refine ⟨(name, url) :: l1, p, l2, by rw [heq]; rfl, ?_, hlt, ?_, hl2⟩
      · simp only [bestLoop]
        rw [if_neg hc]
        exact hbl
      · intro x hx
        rcases List.mem_cons.mp hx with rfl | hx
        · exact lt_of_le_of_lt (not_lt.mp hc) hlt
        · exact hl1 x hx

/-- Concrete similarity: identical `"Acme Corp"` strings score 1. -/
theorem sim_acme_self : get_string_similarity "Acme Corp" "Acme Corp" = 1 := by
  rw [get_string_similarity_eval "Acme Corp" "Acme Corp" 9 18 (by decide) (by norm_num)]
  norm_num

/-- Concrete similarity: `"Acme Corp"` vs `"Acme"` scores 8/13. -/
theorem sim_acme_partial : get_string_similarity "Acme Corp" "Acme" = 8 / 13 := by
  rw [get_string_similarity_eval "Acme Corp" "Acme" 4 13 (by decide) (by norm_num)]
  norm_num

/-- Concrete similarity: disjoint `"Bar"` vs `"Foo"` scores 0. -/
theorem sim_bar_foo : get_string_similarity "Bar" "Foo" = 0 := by
  rw [get_string_similarity_eval "Bar" "Foo" 0 6 (by decide) (by norm_num)]
  norm_num

/-- Concrete similarity: `"ab"` vs `"ac"` scores 1/2. -/
theorem sim_ab_ac : get_string_similarity "ab" "ac" = 1 / 2 := by
  rw [get_string_similarity_eval "ab" "ac" 1 4 (by decide) (by norm_num)]
  norm_num

/-- Concrete similarity: `"abcd"` vs `"abxx"` scores 1/2. -/
theorem sim_abcd_abxx : get_string_similarity "abcd" "abxx" = 1 / 2 := by
  rw [get_string_similarity_eval "abcd" "abxx" 2 8 (by decide) (by norm_num)]
  norm_num

/-- Concrete similarity: identical `"Acme"` strings score 1. -/
theorem sim_acme4 : get_string_similarity "Acme" "Acme" = 1 := by
  rw [get_string_similarity_eval "Acme" "Acme" 4 8 (by decide) (by norm_num)]
  norm_num

/-- A below-threshold positive best: the matcher enters the prompt branch. -/
theorem core_prompt_abcd : analyze_core [("abxx", "u9")] "abcd" = .prompt := by
  have hb : bestLoop "abcd" [("abxx", "u9")] none 0 = (some ("abxx", "u9"), 1 / 2) := by
    simp only [bestLoop, sim_abcd_abxx]
    rw [if_pos (by norm_num : (0 : ℚ) < 1 / 2)]
  simp only [analyze_core, List.isEmpty_cons, Bool.false_eq_true, if_false, hb,
    NAME_SIMILARITY_THRESHOLD]
  rw [if_neg (by norm_num : ¬((4 : ℚ) / 5 ≤ 1 / 2))]

/-- An exact match auto-accepts. -/
theorem core_found_acme : analyze_core [("Acme", "u2")] "Acme" = .found "Acme" "u2" := by
  have hb : bestLoop "Acme" [("Acme", "u2")] none 0 = (some ("Acme", "u2"), 1) := by
    simp only [bestLoop, sim_acme4]
    rw [if_pos (by norm_num : (0 : ℚ) < 1)]
  simp only [analyze_core, List.isEmpty_cons, Bool.false_eq_true, if_false, hb,
    NAME_SIMILARITY_THRESHOLD]
  rw [if_pos (by norm_num : (4 : ℚ) / 5 ≤ 1)]

/-! ### Claim C1 -/

/-- Claim C1, counterexample: with one candidate scoring strictly between 0
and 0.8 the code does not return absent — it enters the interactive
disambiguation branch (`.prompt`), and with no operator input available the
call blocks (modelled as `none`), contradicting "returns absent rather than
guessing … and never blocks on or prompts for operator input itself". -/
theorem c1_counterexample :
    analyze_core [("ac", "u1")] "ab" = .prompt ∧
    analyze_search_results [] [("ac", "u1")] "ab" = none := by
  have hb : bestLoop "ab" [("ac", "u1")] none 0 = (some ("ac", "u1"), 1 / 2) := by
    simp only [bestLoop, sim_ab_ac]
    rw [if_pos (by norm_num : (0 : ℚ) < 1 / 2)]
  have hc : analyze_core [("ac", "u1")] "ab" = .prompt := by
    simp only [analyze_core, List.isEmpty_cons, Bool.false_eq_true, if_false, hb,
      NAME_SIMILARITY_THRESHOLD]
    rw [if_neg (by norm_num : ¬((4 : ℚ) / 5 ≤ 1 / 2))]
  refine ⟨hc, ?_⟩
  simp only [analyze_search_results, hc]
  rfl

/-- Claim C1 (amended): on an empty candidate list, or when every candidate
scores exactly 0, the matcher returns absent without prompting and never
raises; but when the top score is positive and below 0.8 the matcher itself
enters the interactive disambiguation loop — it prompts the operator and
blocks on input, returning the operator's selection, or absent when the
operator skips with `'s'`.  Auto-acceptance happens only at scores ≥ 0.8. -/
theorem c1_amended_theorem :
    (∀ (q : String) (inputs : List String),
       analyze_search_results inputs [] q = some none) ∧
    (∀ (q : String) (rs : List (String × String)) (inputs : List String),
       rs ≠ [] → (∀ p ∈ rs, get_string_similarity q p.1 = 0) →
       analyze_search_results inputs rs q = some none) ∧
    (∀ (q : String) (rs : List (String × String)) (inputs : List String),
       analyze_core rs q = .prompt →
       analyze_search_results inputs rs q = disambiguate rs inputs) ∧
    (∀ (rs : List (String × String)) (inputs : List String),
       disambiguate rs ("s" :: inputs) = some none) ∧
    (∀ (q n u : String) (rs : List (String × String)),
       analyze_core rs q = .found n u →
       NAME_SIMILARITY_THRESHOLD ≤ (bestLoop q rs none 0).2) := by
  refine ⟨fun q inputs => rfl, ?_, ?_, ?_, ?_⟩
  · intro q rs inputs hne h0
    cases rs with
    | nil => exact absurd rfl hne
    | cons r rest =>
      have hb := bestLoop_all_le q (r :: rest) none 0 fun p hp => le_of_eq (h0 p hp)
      simp only [analyze_search_results, analyze_core, List.isEmpty_cons,
        Bool.false_eq_true, if_false, hb]
  · intro q rs inputs h
    simp only [analyze_search_results, h]
  · intro rs inputs
    simp only [disambiguate]
    rw [if_pos (by decide : (pyLower (pyStrip "s") == "s") = true)]
  · intro q n u rs h
    unfold analyze_core at h
    by_cases he : rs.isEmpty = true
    · rw [if_pos he] at h
      exact absurd h (by simp)
    · rw [if_neg he] at h
      rcases hbl : bestLoop q rs none 0 with ⟨bm, bs⟩
      rw [hbl] at h
      cases bm with
      | none => exact absurd h (by simp)
      | some p =>
        by_cases hth : NAME_SIMILARITY_THRESHOLD ≤ bs
        · exact hth
        · simp [hth] at h

/-- Claim C1, witness: the amended theorem applied at concrete inputs — an
all-zero-score list returns absent, a positive below-threshold list hands
control to the disambiguation loop, an operator `'s'` yields absent, and a
found outcome certifies its threshold. -/
theorem c1_witness :
    analyze_search_results ["s"] [("Foo", "u1")] "Bar" = some none ∧
    analyze_search_results ["s"] [("abxx", "u9")] "abcd" =
      disambiguate [("abxx", "u9")] ["s"] ∧
    disambiguate [("Foo", "u1")] ["s"] = some none ∧
    NAME_SIMILARITY_THRESHOLD ≤ (bestLoop "Acme" [("Acme", "u2")] none 0).2 := by
  refine ⟨?_, ?_, c1_amended_theorem.2.2.2.1 [("Foo", "u1")] [], ?_⟩
  · apply c1_amended_theorem.2.1 "Bar" [("Foo", "u1")] ["s"] (by simp)
    intro p hp
    rw [List.mem_singleton] at hp
    subst hp
    exact sim_bar_foo
  · exact c1_amended_theorem.2.2.1 "abcd" [("abxx", "u9")] ["s"] core_prompt_abcd
  · exact c1_amended_theorem.2.2.2.2 "Acme" "Acme" "u2" [("Acme", "u2")] core_found_acme

/-! ### Claim C6 -/

/-- Claim C6, counterexample: the claim quantifies over every non-empty
candidate list, but when the only candidate scores 0 the loop — which starts
at `best_similarity = 0` and replaces only on strict improvement — selects
nothing, and the matcher signals no-match instead of selecting the (unique)
top-scoring candidate. -/
theorem c6_counterexample :
    (bestLoop "Bar" [("Foo", "u1")] none 0).1 = none ∧
    analyze_core [("Foo", "u1")] "Bar" = .noMatch := by
  have hb : bestLoop "Bar" [("Foo", "u1")] none 0 = (none, 0) := by
    apply bestLoop_all_le
    intro p hp
    rw [List.mem_singleton] at hp
    subst hp
    exact le_of_eq sim_bar_foo
  constructor
  · rw [hb]
  · simp only [analyze_core, List.isEmpty_cons, Bool.false_eq_true, if_false, hb]

/-- Claim C6 (amended): for every candidate list containing a candidate with
positive similarity to the query, the selection loop picks the first
candidate attaining the maximum score — every earlier candidate scores
strictly less and every later one at most as much (ties go to first-seen);
when every candidate scores 0, nothing is selected.  In particular
`resolve([("Acme Corp", u1), ("Acme", u2)], "Acme Corp")` auto-accepts the
first candidate, since the exact match scores 1 and dominates the partial
match 8/13. -/
theorem c6_amended_theorem :
    (∀ (q : String) (rs : List (String × String)),
      (∃ p ∈ rs, 0 < get_string_similarity q p.1) →
      ∃ l1 p l2, rs = l1 ++ p :: l2 ∧
        (bestLoop q rs none 0).1 = some p ∧
        (∀ x ∈ l1, get_string_similarity q x.1 < get_string_similarity q p.1) ∧
        (∀ y ∈ l2, get_string_similarity q y.1 ≤ get_string_similarity q p.1)) ∧
    analyze_core [("Acme Corp", "u1"), ("Acme", "u2")] "Acme Corp" =
      .found "Acme Corp" "u1" := by
  constructor
  · intro q rs h
    obtain ⟨l1, p, l2, heq, hbl, _, hl1, hl2⟩ := bestLoop_split q rs none 0 h
    exact ⟨l1, p, l2, heq, by rw [hbl], hl1, hl2⟩
  · have hb : bestLoop "Acme Corp" [("Acme Corp", "u1"), ("Acme", "u2")] none 0 =
        (some ("Acme Corp", "u1"), 1) := by
      simp only [bestLoop, sim_acme_self, sim_acme_partial]
      rw [if_pos (by norm_num : (0 : ℚ) < 1), if_neg (by norm_num : ¬((1 : ℚ) < 8 / 13))]
    simp only [analyze_core, List.isEmpty_cons, Bool.false_eq_true, if_false, hb,
      NAME_SIMILARITY_THRESHOLD]
    rw [if_pos (by norm_num : (4 : ℚ) / 5 ≤ 1)]

/-- Claim C6, witness: the amended selection property applied to the Acme
candidate list. -/
theorem c6_witness :
    ∃ l1 p l2, ([("Acme Corp", "u1"), ("Acme", "u2")] : List (String × String)) =
        l1 ++ p :: l2 ∧
      (bestLoop "Acme Corp" [("Acme Corp", "u1"), ("Acme", "u2")] none 0).1 = some p ∧
      (∀ x ∈ l1, get_string_similarity "Acme Corp" x.1 <
        get_string_similarity "Acme Corp" p.1) ∧
      (∀ y ∈ l2, get_string_similarity "Acme Corp" y.1 ≤
        get_string_similarity "Acme Corp" p.1) := by
  apply c6_amended_theorem.1
  refine ⟨("Acme Corp", "u1"), by simp, ?_⟩
  rw [sim_acme_self]
  norm_num

/-! ### Claim C10 -/

/-- Claim C10: when every candidate scores exactly 0 against the query, no
best match is ever recorded (candidates are retained only on a score strictly
above the running best, initialised to 0), so `analyze_search_results`
signals no-match immediately without entering the disambiguation branch. -/
theorem c10_theorem (results : List (String × String)) (search_name : String)
    (hne : results ≠ [])
    (h0 : ∀ p ∈ results, get_string_similarity search_name p.1 = 0) :
    analyze_core results search_name = .noMatch := by
  cases results with
  | nil => exact absurd rfl hne
  | cons r rest =>
    have hb := bestLoop_all_le search_name (r :: rest) none 0 fun p hp => le_of_eq (h0 p hp)
    simp only [analyze_core, List.isEmpty_cons, Bool.false_eq_true, if_false, hb]

/-- Claim C10, witness: the theorem applied to a single zero-scoring
candidate. -/
theorem c10_witness : analyze_core [("xyz", "u")] "ab" = .noMatch := by
  apply c10_theorem [("xyz", "u")] "ab" (by simp)
  intro p hp
  rw [List.mem_singleton] at hp
  subst hp
  rw [get_string_similarity_eval "ab" "xyz" 0 5 (by decide) (by norm_num)]
  norm_num

/-! ### Field Extractors (src/utils.py lines 399-533)

The browser DOM is the external page-query capability.  An `Element` carries
the two observations the extractors make of a found element: its `title`
attribute (`get_attribute('title')`, absent when the attribute is missing)
and its visible text.  The per-label XPath lookup of `get_field_by_label` is
abstracted as a function from the computed query (first word, last word,
per-label value-element selector) to the element found, `none` modelling
`NoSuchElementException`. -/

/-- An element as observed by the extractors. -/
structure Element where
  title : Option String
  text : String
deriving DecidableEq

/-- The per-label value-element sub-pattern selected by `get_field_by_label`'s
`if`/`elif` chain. -/
inductive LabelSelector where
  | blobSpan
  | enumSpan
  | dateSpan
  | linkAnchor
  | formatterClass (cls : String)
deriving DecidableEq

/-- The `field_type_mapping` dict with its `'field-formatter'` default. -/
def field_type_mapping (label : String) : String :=
  if label == "Founded Date" then "field-type-date_precision"
  else if label == "Stock Symbol" then "link-formatter"
  else if label == "Legal Name" then "blob-formatter"
  else if label == "Operating Status" then "field-type-enum"
  else "field-formatter"

/-- The value-element selector chosen per label (the four named labels are
special-cased; anything else falls back to the generic formatter class). -/
def labelSelectorFor (label : String) : LabelSelector :=
  if label == "Legal Name" then .blobSpan
  else if label == "Operating Status" then .enumSpan
  else if label == "Founded Date" then .dateSpan
  else if label == "Stock Symbol" then .linkAnchor
  else .formatterClass (field_type_mapping label)

/-- Python `str.split()` with no separator: whitespace runs, empties dropped. -/
def wordsAux : List Char → List Char → List String
  | [], acc => if acc.isEmpty then [] else [String.mk acc.reverse]
  | c :: r, acc =>
    if isPySpace c then
      if acc.isEmpty then wordsAux r [] else String.mk acc.reverse :: wordsAux r []
    else wordsAux r (c :: acc)

/-- Python `label_text.split()`. -/
def pyWords (s : String) : List String :=
  wordsAux s.toList []

/-- The XPath query data computed by `get_field_by_label`: first and last
word of the label and the per-label value selector. -/
structure LabelQuery where
  first_word : String
  last_word : String
  selector : LabelSelector
deriving DecidableEq

/-- The query `get_field_by_label` issues for a label (meaningful only when
the label has at least one word; on an empty label the code raises and
returns `None` before querying). -/
def labelQueryFor (label : String) : LabelQuery :=
  match pyWords label with
  | [] => ⟨"", "", labelSelectorFor label⟩
  | w :: ws => ⟨w, (w :: ws).getLastD w, labelSelectorFor label⟩

/-- Python `x or y` for an optional string against a string default:
`None` and `''` are falsy. -/
def pyOrStr (t : Option String) (d : String) : String :=
  match t with
  | some s => if s == "" then d else s
  | none => d

/-- Embedding of `get_field_by_label` (src/utils.py lines 444-491): find the
per-label value element; for `Stock Symbol` return only its `title`
attribute; for every other label return the `title` attribute, falling back
to stripped visible text when the attribute is missing or empty. -/
def get_field_by_label (find : LabelQuery → Option Element) (label_text : String) :
    Option String :=
  if (pyWords label_text).isEmpty then none
  else
    match find (labelQueryFor label_text) with
    | none => none
    | some element =>
      if label_text == "Stock Symbol" then element.title
      else some (pyOrStr element.title (pyStrip element.text))

/-- Embedding of `get_numeric_field_by_label` (src/utils.py lines 493-505):
title-or-text of the integer-typed element next to the exact label, parsed
only when purely digits. -/
def get_numeric_field_by_label (find : String → Option Element) (label_text : String) :
    Option ℤ :=
  match find label_text with
  | none => none
  | some element =>
    let value := pyOrStr element.title (pyStrip element.text)
    if value != "" && value.toList.all Char.isDigit then some ((digitsToNat value.toList : ℤ))
    else none

/-! ### CompanyData (src/models.py) -/

/-- The `CompanyData` dataclass.  Python's dataclass annotations are not
enforced at runtime: `ranking` is set to the raw string when the scraped text
is not all digits, so it is modelled as an integer-or-string sum. -/
structure CompanyData where
  name : String
  about : Option String
  quantum_general : Option String
  quantum_computing : Option String
  bis_list : Option Bool
  qedc_list : Option Bool
  total_funding_cny : Option ℚ
  total_funding_usd : Option ℚ
  funding_info : Option String
  last_funding_type : Option String
  location : Option String
  employee_count : Option String
  company_type : Option String
  website : Option String
  year_founded : Option ℤ
  ranking : Option (ℤ ⊕ String)
  acquisitions_count : Option ℤ
  investments_count : Option ℤ
  exits_count : Option ℤ
  stock_symbol : Option String
  legal_name : Option String
  operating_status : Option String
  notes : Option String
deriving DecidableEq

/-- `CompanyData(name=name)`: every field except `name` defaults to `None`. -/
def CompanyData.mkDefault (name : String) : CompanyData :=
  ⟨name, none, none, none, none, none, none, none, none, none, none, none,
   none, none, none, none, none, none, none, none, none, none, none⟩

/-! ### Record Assembler (src/utils.py lines 507-654) -/

/-- The `SVG_PATHS` icon-path signature constants. -/
def SVG_PATHS (key : String) : String :=
  if key == "location" then
    "M12,2C8.1,2,5,5.1,5,9c0,5.2,7,13,7,13s7-7.8,7-13C19,5.1,15.9,2,12,2z M12,11.5c-1.4,0-2.5-1.1-2.5-2.5s1.1-2.5,2.5-2.5s2.5,1.1,2.5,2.5S13.4,11.5,12,11.5z"
  else if key == "employees" then
    "M16.36,10.91a3.28,3.28,0,1,0-3.27-3.27A3.26,3.26,0,0,0,16.36,10.91Zm-8.72,0A3.28,3.28,0,1,0,4.36,7.64,3.26,3.26,0,0,0,7.64,10.91Zm0,2.18C5.09,13.09,0,14.37,0,16.91v2.73H15.27V16.91C15.27,14.37,10.18,13.09,7.64,13.09Zm8.72,0a10.24,10.24,0,0,0-1,.06,4.59,4.59,0,0,1,2.14,3.76v2.73H24V16.91C24,14.37,18.91,13.09,16.36,13.09Z"
  else if key == "company_type" then
    "M14.4,6L14,4H5v17h2v-7h5.6l0.4,2h7V6H14.4z"
  else if key == "website" then
    "M12,2C6.5,2,2,6.5,2,12s4.5,10,10,10s10-4.5,10-10S17.5,2,12,2z M11,19.9c-3.9-0.5-7-3.9-7-7.9c0-0.6,0.1-1.2,0.2-1.8L9,15v1c0,1.1,0.9,2,2,2V19.9z M17.9,17.4c-0.3-0.8-1-1.4-1.9-1.4h-1v-3c0-0.6-0.4-1-1-1H8v-2h2c0.6,0,1-0.4,1-1V7h2c1.1,0,2-0.9,2-2V4.6c2.9,1.2,5,4.1,5,7.4C20,14.1,19.2,16,17.9,17.4z"
  else if key == "ranking" then
    "M21.3,0H2.7C1.2,0,0,1.2,0,2.7v18.7C0,22.8,1.2,24,2.7,24h18.7c1.5,0,2.7-1.2,2.7-2.7V2.7C24,1.2,22.8,0,21.3,0z M21.3,21.3H2.7V2.7h18.7V21.3z M5.3,14.7h2.7v6.7H5.3V14.7z M10.7,10.7h2.7v10.7h-2.7V10.7z M16,5.3h2.7v16H16V5.3z"
  else if key == "funding_type" then
    "M12.52,10.53c-3-.78-4-1.6-4-2.86,0-1.46,1.35-2.47,3.6-2.47S15.37,6.33,15.45,8H18.4a5.31,5.31,0,0,0-4.28-5.08V0h-4V2.88c-2.59.56-4.67,2.24-4.67,4.81,0,3.08,2.55,4.62,6.27,5.51,3.33.8,4,2,4,3.21,0,.92-.65,2.39-3.6,2.39-2.75,0-3.83-1.23-4-2.8H5.21c.16,2.92,2.35,4.56,4.91,5.11V24h4V21.13c2.6-.49,4.67-2,4.67-4.73C18.79,12.61,15.55,11.32,12.52,10.53Z"
  else ""

/-- The environment of page observations `scrape_company_data` consumes: the
results of each external page query, and whether the secondary financials
navigation succeeds (`nav_ok = false` models the unguarded `driver.get` /
`current_url` calls raising, which aborts the whole pass through the outer
`except`). -/
structure ScrapeEnv where
  clean_name : Option String
  description : Option String
  svg_text : String → Option String
  website_href : Option (Option String)
  numeric_find : String → Option Element
  label_find : LabelQuery → Option Element
  funding_info : Option String
  nav_ok : Bool

/-- `setattr` for the plain-string SVG fields. -/
def setStrField (cd : CompanyData) (field : String) (v : String) : CompanyData :=
  if field == "location" then { cd with location := some v }
  else if field == "employee_count" then { cd with employee_count := some v }
  else if field == "company_type" then { cd with company_type := some v }
  else if field == "last_funding_type" then { cd with last_funding_type := some v }
  else cd

/-- One iteration of the SVG field loop: skip falsy values; `website`
re-resolves the anchor's `href` (keeping the text when that raises);
`ranking` is coerced to an integer only when all digits, otherwise the raw
string is stored. -/
def applySvgField (env : ScrapeEnv) (cd : CompanyData) (field svg_path : String) :
    CompanyData :=
  match env.svg_text svg_path with
  | none => cd
  | some v =>
    if v == "" then cd
    else if field == "website" then
      match env.website_href with
      | none => { cd with website := some v }
      | some h => { cd with website := h }
    else if field == "ranking" then
      if v.toList.all Char.isDigit then { cd with ranking := some (Sum.inl (digitsToNat v.toList : ℤ)) }
      else { cd with ranking := some (Sum.inr v) }
    else setStrField cd field v

/-- One iteration of the numeric-fields loop (`is not None` check, so a
parsed 0 is stored). -/
def applyNumericField (env : ScrapeEnv) (cd : CompanyData) (field label : String) :
    CompanyData :=
  match get_numeric_field_by_label env.numeric_find label with
  | none => cd
  | some v =>
    if field == "acquisitions_count" then { cd with acquisitions_count := some v }
    else if field == "investments_count" then { cd with investments_count := some v }
    else if field == "exits_count" then { cd with exits_count := some v }
    else cd

/-- `value.split(',')[-1]` of the founded-date string. -/
def lastCommaToken (v : String) : String :=
  String.mk ((splitOnL v.toList [',']).getLastD [])

/-- The trailing-year parse of the founded-date string:
`int(value.split(',')[-1].strip())`, `None` on failure. -/
def foundedYearParse (v : String) : Option ℤ :=
  pyInt? (pyStrip (lastCommaToken v))

/-- One iteration of the label-fields loop: skip falsy values; `founded_date`
parses the trailing year into `year_founded` (swallowing parse failures);
the other labels are stored verbatim. -/
def applyLabelField (env : ScrapeEnv) (cd : CompanyData) (field label : String) :
    CompanyData :=
  match get_field_by_label env.label_find label with
  | none => cd
  | some v =>
    if v == "" then cd
    else if field == "founded_date" then
      match foundedYearParse v with
      | some year => { cd with year_founded := some year }
      | none => cd
    else if field == "stock_symbol" then { cd with stock_symbol := some v }
    else if field == "legal_name" then { cd with legal_name := some v }
    else if field == "operating_status" then { cd with operating_status := some v }
    else cd

/-- The `field_mapping` of the SVG loop, in Python dict insertion order. -/
def field_mapping : List (String × String) :=
  [("location", SVG_PATHS "location"),
   ("employee_count", SVG_PATHS "employees"),
   ("company_type", SVG_PATHS "company_type"),
   ("website", SVG_PATHS "website"),
   ("ranking", SVG_PATHS "ranking"),
   ("last_funding_type", SVG_PATHS "funding_type")]

/-- The `numeric_fields` mapping, in Python dict insertion order. -/
def numericFieldPairs : List (String × String) :=
  [("acquisitions_count", "Acquisitions"),
   ("investments_count", "Investments"),
   ("exits_count", "Exits")]

/-- The `label_fields` mapping, in Python dict insertion order. -/
def labelFieldPairs : List (String × String) :=
  [("founded_date", "Founded Date"),
   ("stock_symbol", "Stock Symbol"),
   ("legal_name", "Legal Name"),
   ("operating_status", "Operating Status")]

/-- The description step (`if description: company_data.about = description`). -/
def applyDescription (env : ScrapeEnv) (cd : CompanyData) : CompanyData :=
  match env.description with
  | some d => if d == "" then cd else { cd with about := some d }
  | none => cd

/-- The funding-info step after the financials navigation
(`if funding_info: company_data.funding_info = funding_info`). -/
def applyFunding (env : ScrapeEnv) (cd : CompanyData) : CompanyData :=
  match env.funding_info with
  | some fi => if fi == "" then cd else { cd with funding_info := some fi }
  | none => cd

/-- Embedding of `scrape_company_data` (src/utils.py lines 535-654): require
a truthy company name or abort; build the record with all other fields
defaulted; apply the description, SVG, numeric and label extractors in
order; perform the financials navigation (failure aborts the pass and
discards the record); attach the funding info; return the record. -/
def scrape_company_data (env : ScrapeEnv) : Option CompanyData :=
  match env.clean_name with
  | none => none
  | some name =>
    if name == "" then none
    else
      let cd1 := applyDescription env (CompanyData.mkDefault name)
      let cd2 := field_mapping.foldl (fun c p => applySvgField env c p.1 p.2) cd1
      let cd3 := numericFieldPairs.foldl (fun c p => applyNumericField env c p.1 p.2) cd2
      let cd4 := labelFieldPairs.foldl (fun c p => applyLabelField env c p.1 p.2) cd3
      if !env.nav_ok then none
      else some (applyFunding env cd4)

/-! ### Claim C7 -/

/-- A page in which every label query finds an element carrying visible text
but no title attribute. -/
def c7find : LabelQuery → Option Element := fun _ => some ⟨none, "TSLA"⟩

/-- A page in which every label query finds an element carrying both a title
attribute and visible text. -/
def c7findT : LabelQuery → Option Element := fun _ => some ⟨some "NYSE: TSLA", "TSLA"⟩

/-- Computation rule: title preferred over text for non-`Stock Symbol`
labels. -/
theorem gfbl_title (find : LabelQuery → Option Element) (label : String) (el : Element)
    (t : String) (hw : (pyWords label).isEmpty = false)
    (hns : (label == "Stock Symbol") = false)
    (hfind : find (labelQueryFor label) = some el) (htitle : el.title = some t)
    (ht : t ≠ "") :
    get_field_by_label find label = some t := by
  simp only [get_field_by_label, hw, Bool.false_eq_true, if_false, hfind, hns, pyOrStr, htitle]
  rw [if_neg (by simpa using ht)]

/-- Computation rule: text fallback for non-`Stock Symbol` labels with no
title attribute. -/
theorem gfbl_fallback (find : LabelQuery → Option Element) (label : String) (el : Element)
    (hw : (pyWords label).isEmpty = false)
    (hns : (label == "Stock Symbol") = false)
    (hfind : find (labelQueryFor label) = some el) (htitle : el.title = none) :
    get_field_by_label find label = some (pyStrip el.text) := by
  simp only [get_field_by_label, hw, Bool.false_eq_true, if_false, hfind, hns, pyOrStr, htitle]

/-- Computation rule: for `Stock Symbol` only the title attribute is
returned. -/
theorem gfbl_stock (find : LabelQuery → Option Element) (el : Element)
    (hfind : find (labelQueryFor "Stock Symbol") = some el) :
    get_field_by_label find "Stock Symbol" = el.title := by
  simp only [get_field_by_label]
  rw [if_neg (by decide : ¬((pyWords "Stock Symbol").isEmpty = true))]
  rw [hfind]
  simp

/-- Claim C7, counterexample: the claim says the preference-with-fallback
holds uniformly across all four labels including `Stock Symbol`, but for
`Stock Symbol` the code returns only `get_attribute('title')` — when the
element has visible text `"TSLA"` and no title attribute, extraction yields
absent instead of the text. -/
theorem c7_counterexample :
    get_field_by_label c7find "Stock Symbol" = none ∧
    (Element.mk none "TSLA").text = "TSLA" ∧
    get_field_by_label c7find "Stock Symbol" ≠ some "TSLA" := by
  refine ⟨rfl, rfl, ?_⟩
  intro hx
  rw [show get_field_by_label c7find "Stock Symbol" = none from rfl] at hx
  exact Option.noConfusion hx

/-- Claim C7 (amended): for every supported label, a non-empty title/tooltip
attribute is preferred over the visible text; the fallback to visible text
when no title is present holds for `Founded Date`, `Legal Name` and
`Operating Status`, but not for `Stock Symbol`, whose extraction reads only
the title attribute and yields absent when it is missing, even when visible
text exists. -/
theorem c7_amended_theorem :
    (∀ (find : LabelQuery → Option Element) (label : String) (el : Element) (t : String),
      label ∈ ["Founded Date", "Stock Symbol", "Legal Name", "Operating Status"] →
      find (labelQueryFor label) = some el → el.title = some t → t ≠ "" →
      get_field_by_label find label = some t) ∧
    (∀ (find : LabelQuery → Option Element) (label : String) (el : Element),
      label ∈ ["Founded Date", "Legal Name", "Operating Status"] →
      find (labelQueryFor label) = some el → el.title = none →
      get_field_by_label find label = some (pyStrip el.text)) ∧
    (∀ (find : LabelQuery → Option Element) (el : Element),
      find (labelQueryFor "Stock Symbol") = some el →
      get_field_by_label find "Stock Symbol" = el.title) := by
  refine ⟨?_, ?_, gfbl_stock⟩
  · intro find label el t hmem hfind htitle ht
    fin_cases hmem
    · exact gfbl_title find _ el t (by decide) (by decide) hfind htitle ht
    · rw [gfbl_stock find el hfind, htitle]
    · exact gfbl_title find _ el t (by decide) (by decide) hfind htitle ht
    · exact gfbl_title find _ el t (by decide) (by decide) hfind htitle ht
  · intro find label el hmem hfind htitle
    fin_cases hmem
    · exact gfbl_fallback find _ el (by decide) (by decide) hfind htitle
    · exact gfbl_fallback find _ el (by decide) (by decide) hfind htitle
    · exact gfbl_fallback find _ el (by decide) (by decide) hfind htitle

/-- Claim C7, witness: the amended theorem applied to concrete pages — title
preferred for both a generic label and `Stock Symbol`; text fallback for
`Legal Name`. -/
theorem c7_witness :
    get_field_by_label c7findT "Stock Symbol" = some "NYSE: TSLA" ∧
    get_field_by_label c7findT "Legal Name" = some "NYSE: TSLA" ∧
    get_field_by_label c7find "Legal Name" = some (pyStrip "TSLA") := by
  refine ⟨?_, ?_, ?_⟩
  · exact c7_amended_theorem.1 c7findT "Stock Symbol" ⟨some "NYSE: TSLA", "TSLA"⟩
      "NYSE: TSLA" (by simp) rfl rfl (by decide)
  · exact c7_amended_theorem.1 c7findT "Legal Name" ⟨some "NYSE: TSLA", "TSLA"⟩
      "NYSE: TSLA" (by simp) rfl rfl (by decide)
  · exact c7_amended_theorem.2.1 c7find "Legal Name" ⟨none, "TSLA"⟩ (by simp) rfl rfl

/-! ### Supporting lemmas for the Record Assembler claims -/

/-- The truthy-filtered label value recorded by the label loop. -/
def labelValueOf (env : ScrapeEnv) (label : String) : Option String :=
  match get_field_by_label env.label_find label with
  | none => none
  | some v => if v == "" then none else some v

/-- The `year_founded` value derived from the founded-date extraction. -/
def yearFoundedOf (env : ScrapeEnv) : Option ℤ :=
  match labelValueOf env "Founded Date" with
  | none => none
  | some v => foundedYearParse v

/-- The `funding_info` value recorded after the financials navigation. -/
def fundingInfoOf (env : ScrapeEnv) : Option String :=
  match env.funding_info with
  | some fi => if fi == "" then none else some fi
  | none => none

/-- Overwrite-if-present: the value a field holds after a loop iteration
that sets it only when the extraction produced something. -/
def orKeep (new old : Option α) : Option α :=
  match new with
  | some v => some v
  | none => old

/-- `orKeep` over an absent old value is the new value. -/
theorem orKeep_none (new : Option α) : orKeep new none = new := by
  cases new <;> rfl

/-- `setStrField` never touches `name` nor the label-loop fields. -/
theorem setStrField_keeps (cd : CompanyData) (f v : String) :
    (setStrField cd f v).name = cd.name ∧
    (setStrField cd f v).year_founded = cd.year_founded ∧
    (setStrField cd f v).stock_symbol = cd.stock_symbol ∧
    (setStrField cd f v).legal_name = cd.legal_name ∧
    (setStrField cd f v).operating_status = cd.operating_status ∧
    (setStrField cd f v).funding_info = cd.funding_info := by
  unfold setStrField
  repeat' split
  all_goals exact ⟨rfl, rfl, rfl, rfl, rfl, rfl⟩

/-- The SVG loop never touches `name` nor the label-loop fields. -/
theorem applySvgField_keeps (env : ScrapeEnv) (cd : CompanyData) (f p : String) :
    (applySvgField env cd f p).name = cd.name ∧
    (applySvgField env cd f p).year_founded = cd.year_founded ∧
    (applySvgField env cd f p).stock_symbol = cd.stock_symbol ∧
    (applySvgField env cd f p).legal_name = cd.legal_name ∧
    (applySvgField env cd f p).operating_status = cd.operating_status ∧
    (applySvgField env cd f p).funding_info = cd.funding_info := by
  unfold applySvgField
  repeat' split
  all_goals first
    | exact ⟨rfl, rfl, rfl, rfl, rfl, rfl⟩
    | exact setStrField_keeps cd f _

/-- The numeric loop never touches `name` nor the label-loop fields. -/
theorem applyNumericField_keeps (env : ScrapeEnv) (cd : CompanyData) (f l : String) :
    (applyNumericField env cd f l).name = cd.name ∧
    (applyNumericField env cd f l).year_founded = cd.year_founded ∧
    (applyNumericField env cd f l).stock_symbol = cd.stock_symbol ∧
    (applyNumericField env cd f l).legal_name = cd.legal_name ∧
    (applyNumericField env cd f l).operating_status = cd.operating_status ∧
    (applyNumericField env cd f l).funding_info = cd.funding_info := by
  unfold applyNumericField
  repeat' split
  all_goals exact ⟨rfl, rfl, rfl, rfl, rfl, rfl⟩

/-- The description step never touches `name` nor the label-loop fields. -/
theorem applyDescription_keeps (env : ScrapeEnv) (cd : CompanyData) :
    (applyDescription env cd).name = cd.name ∧
    (applyDescription env cd).year_founded = cd.year_founded ∧
    (applyDescription env cd).stock_symbol = cd.stock_symbol ∧
    (applyDescription env cd).legal_name = cd.legal_name ∧
    (applyDescription env cd).operating_status = cd.operating_status ∧
    (applyDescription env cd).funding_info = cd.funding_info := by
  unfold applyDescription
  repeat' split
  all_goals exact ⟨rfl, rfl, rfl, rfl, rfl, rfl⟩

/-- The funding step sets exactly `funding_info` and keeps the rest. -/
theorem applyFunding_effect (env : ScrapeEnv) (cd : CompanyData) :
    (applyFunding env cd).name = cd.name ∧
    (applyFunding env cd).year_founded = cd.year_founded ∧
    (applyFunding env cd).stock_symbol = cd.stock_symbol ∧
    (applyFunding env cd).legal_name = cd.legal_name ∧
    (applyFunding env cd).operating_status = cd.operating_status ∧
    (applyFunding env cd).funding_info = orKeep (fundingInfoOf env) cd.funding_info := by
  unfold applyFunding fundingInfoOf orKeep
  repeat' split
  all_goals simp_all

/-- The label loop never touches `name`, whatever the pair. -/
theorem applyLabelField_name (env : ScrapeEnv) (cd : CompanyData) (f l : String) :
    (applyLabelField env cd f l).name = cd.name := by
  unfold applyLabelField
  repeat' split
  all_goals rfl

/-- Effect of the founded-date iteration on the label-loop fields. -/
theorem applyLabelField_founded (env : ScrapeEnv) (cd : CompanyData) :
    (applyLabelField env cd "founded_date" "Founded Date").year_founded =
      orKeep (yearFoundedOf env) cd.year_founded ∧
    (applyLabelField env cd "founded_date" "Founded Date").stock_symbol = cd.stock_symbol ∧
    (applyLabelField env cd "founded_date" "Founded Date").legal_name = cd.legal_name ∧
    (applyLabelField env cd "founded_date" "Founded Date").operating_status =
      cd.operating_status ∧
    (applyLabelField env cd "founded_date" "Founded Date").funding_info = cd.funding_info := by
  unfold applyLabelField yearFoundedOf labelValueOf orKeep
  cases h : get_field_by_label env.label_find "Founded Date" with
  | none => simp
  | some v =>
    by_cases hv : v = ""
    · subst hv
      simp
    · cases hy : foundedYearParse v with
      | none => simp +decide [hv, hy]
      | some y => simp +decide [hv, hy]

/-- Effect of the stock-symbol iteration on the label-loop fields. -/
theorem applyLabelField_stock (env : ScrapeEnv) (cd : CompanyData) :
    (applyLabelField env cd "stock_symbol" "Stock Symbol").stock_symbol =
      orKeep (labelValueOf env "Stock Symbol") cd.stock_symbol ∧
    (applyLabelField env cd "stock_symbol" "Stock Symbol").year_founded = cd.year_founded ∧
    (applyLabelField env cd "stock_symbol" "Stock Symbol").legal_name = cd.legal_name ∧
    (applyLabelField env cd "stock_symbol" "Stock Symbol").operating_status =
      cd.operating_status ∧
    (applyLabelField env cd "stock_symbol" "Stock Symbol").funding_info = cd.funding_info := by
  unfold applyLabelField labelValueOf orKeep
  cases h : get_field_by_label env.label_find "Stock Symbol" with
  | none => simp
  | some v =>
    by_cases hv : v = ""
    · subst hv
      simp
    · simp +decide [hv]

/-- Effect of the legal-name iteration on the label-loop fields. -/
theorem applyLabelField_legal (env : ScrapeEnv) (cd : CompanyData) :
    (applyLabelField env cd "legal_name" "Legal Name").legal_name =
      orKeep (labelValueOf env "Legal Name") cd.legal_name ∧
    (applyLabelField env cd "legal_name" "Legal Name").year_founded = cd.year_founded ∧
    (applyLabelField env cd "legal_name" "Legal Name").stock_symbol = cd.stock_symbol ∧
    (applyLabelField env cd "legal_name" "Legal Name").operating_status =
      cd.operating_status ∧
    (applyLabelField env cd "legal_name" "Legal Name").funding_info = cd.funding_info := by
  unfold applyLabelField labelValueOf orKeep
  cases h : get_field_by_label env.label_find "Legal Name" with
  | none => simp
  | some v =>
    by_cases hv : v = ""
    · subst hv
      simp
    · simp +decide [hv]

/-- Effect of the operating-status iteration on the label-loop fields. -/
theorem applyLabelField_operating (env : ScrapeEnv) (cd : CompanyData) :
    (applyLabelField env cd "operating_status" "Operating Status").operating_status =
      orKeep (labelValueOf env "Operating Status") cd.operating_status ∧
    (applyLabelField env cd "operating_status" "Operating Status").year_founded =
      cd.year_founded ∧
    (applyLabelField env cd "operating_status" "Operating Status").stock_symbol =
      cd.stock_symbol ∧
    (applyLabelField env cd "operating_status" "Operating Status").legal_name =
      cd.legal_name ∧
    (applyLabelField env cd "operating_status" "Operating Status").funding_info =
      cd.funding_info := by
  unfold applyLabelField labelValueOf orKeep
  cases h : get_field_by_label env.label_find "Operating Status" with
  | none => simp
  | some v =>
    by_cases hv : v = ""
    · subst hv
      simp
    · simp +decide [hv]

/-! ### Projection aliases used as rewrite rules -/

theorem applySvgField_name (env : ScrapeEnv) (cd : CompanyData) (f p : String) :
    (applySvgField env cd f p).name = cd.name := (applySvgField_keeps env cd f p).1

theorem applySvgField_year (env : ScrapeEnv) (cd : CompanyData) (f p : String) :
    (applySvgField env cd f p).year_founded = cd.year_founded :=
  (applySvgField_keeps env cd f p).2.1

theorem applySvgField_stock (env : ScrapeEnv) (cd : CompanyData) (f p : String) :
    (applySvgField env cd f p).stock_symbol = cd.stock_symbol :=
  (applySvgField_keeps env cd f p).2.2.1

theorem applySvgField_legal (env : ScrapeEnv) (cd : CompanyData) (f p : String) :
    (applySvgField env cd f p).legal_name = cd.legal_name :=
  (applySvgField_keeps env cd f p).2.2.2.1

theorem applySvgField_operating (env : ScrapeEnv) (cd : CompanyData) (f p : String) :
    (applySvgField env cd f p).operating_status = cd.operating_status :=
  (applySvgField_keeps env cd f p).2.2.2.2.1

theorem applySvgField_funding (env : ScrapeEnv) (cd : CompanyData) (f p : String) :
    (applySvgField env cd f p).funding_info = cd.funding_info :=
  (applySvgField_keeps env cd f p).2.2.2.2.2

theorem applyNumericField_name (env : ScrapeEnv) (cd : CompanyData) (f l : String) :
    (applyNumericField env cd f l).name = cd.name := (applyNumericField_keeps env cd f l).1

theorem applyNumericField_year (env : ScrapeEnv) (cd : CompanyData) (f l : String) :
    (applyNumericField env cd f l).year_founded = cd.year_founded :=
  (applyNumericField_keeps env cd f l).2.1

theorem applyNumericField_stock (env : ScrapeEnv) (cd : CompanyData) (f l : String) :
    (applyNumericField env cd f l).stock_symbol = cd.stock_symbol :=
  (applyNumericField_keeps env cd f l).2.2.1

theorem applyNumericField_legal (env : ScrapeEnv) (cd : CompanyData) (f l : String) :
    (applyNumericField env cd f l).legal_name = cd.legal_name :=
  (applyNumericField_keeps env cd f l).2.2.2.1

theorem applyNumericField_operating (env : ScrapeEnv) (cd : CompanyData) (f l : String) :
    (applyNumericField env cd f l).operating_status = cd.operating_status :=
  (applyNumericField_keeps env cd f l).2.2.2.2.1

theorem applyNumericField_funding (env : ScrapeEnv) (cd : CompanyData) (f l : String) :
    (applyNumericField env cd f l).funding_info = cd.funding_info :=
  (applyNumericField_keeps env cd f l).2.2.2.2.2

theorem applyDescription_name (env : ScrapeEnv) (cd : CompanyData) :
    (applyDescription env cd).name = cd.name := (applyDescription_keeps env cd).1

theorem applyDescription_year (env : ScrapeEnv) (cd : CompanyData) :
    (applyDescription env cd).year_founded = cd.year_founded :=
  (applyDescription_keeps env cd).2.1

theorem applyDescription_stock (env : ScrapeEnv) (cd : CompanyData) :
    (applyDescription env cd).stock_symbol = cd.stock_symbol :=
  (applyDescription_keeps env cd).2.2.1

theorem applyDescription_legal (env : ScrapeEnv) (cd : CompanyData) :
    (applyDescription env cd).legal_name = cd.legal_name :=
  (applyDescription_keeps env cd).2.2.2.1

theorem applyDescription_operating (env : ScrapeEnv) (cd : CompanyData) :
    (applyDescription env cd).operating_status = cd.operating_status :=
  (applyDescription_keeps env cd).2.2.2.2.1

theorem applyDescription_funding (env : ScrapeEnv) (cd : CompanyData) :
    (applyDescription env cd).funding_info = cd.funding_info :=
  (applyDescription_keeps env cd).2.2.2.2.2

theorem applyFunding_name (env : ScrapeEnv) (cd : CompanyData) :
    (applyFunding env cd).name = cd.name := (applyFunding_effect env cd).1

theorem applyFunding_year (env : ScrapeEnv) (cd : CompanyData) :
    (applyFunding env cd).year_founded = cd.year_founded := (applyFunding_effect env cd).2.1

theorem applyFunding_stock (env : ScrapeEnv) (cd : CompanyData) :
    (applyFunding env cd).stock_symbol = cd.stock_symbol :=
  (applyFunding_effect env cd).2.2.1

theorem applyFunding_legal (env : ScrapeEnv) (cd : CompanyData) :
    (applyFunding env cd).legal_name = cd.legal_name := (applyFunding_effect env cd).2.2.2.1

theorem applyFunding_operating (env : ScrapeEnv) (cd : CompanyData) :
    (applyFunding env cd).operating_status = cd.operating_status :=
  (applyFunding_effect env cd).2.2.2.2.1

theorem applyFunding_fundingInfo (env : ScrapeEnv) (cd : CompanyData) :
    (applyFunding env cd).funding_info = orKeep (fundingInfoOf env) cd.funding_info :=
  (applyFunding_effect env cd).2.2.2.2.2

theorem alf_founded_year (env : ScrapeEnv) (cd : CompanyData) :
    (applyLabelField env cd "founded_date" "Founded Date").year_founded =
      orKeep (yearFoundedOf env) cd.year_founded := (applyLabelField_founded env cd).1

theorem alf_founded_stock (env : ScrapeEnv) (cd : CompanyData) :
    (applyLabelField env cd "founded_date" "Founded Date").stock_symbol = cd.stock_symbol :=
  (applyLabelField_founded env cd).2.1

theorem alf_founded_legal (env : ScrapeEnv) (cd : CompanyData) :
    (applyLabelField env cd "founded_date" "Founded Date").legal_name = cd.legal_name :=
  (applyLabelField_founded env cd).2.2.1

theorem alf_founded_operating (env : ScrapeEnv) (cd : CompanyData) :
    (applyLabelField env cd "founded_date" "Founded Date").operating_status =
      cd.operating_status := (applyLabelField_founded env cd).2.2.2.1

theorem alf_founded_funding (env : ScrapeEnv) (cd : CompanyData) :
    (applyLabelField env cd "founded_date" "Founded Date").funding_info = cd.funding_info :=
  (applyLabelField_founded env cd).2.2.2.2

theorem alf_stock_stock (env : ScrapeEnv) (cd : CompanyData) :
    (applyLabelField env cd "stock_symbol" "Stock Symbol").stock_symbol =
      orKeep (labelValueOf env "Stock Symbol") cd.stock_symbol :=
  (applyLabelField_stock env cd).1

theorem alf_stock_year (env : ScrapeEnv) (cd : CompanyData) :
    (applyLabelField env cd "stock_symbol" "Stock Symbol").year_founded = cd.year_founded :=
  (applyLabelField_stock env cd).2.1

theorem alf_stock_legal (env : ScrapeEnv) (cd : CompanyData) :
    (applyLabelField env cd "stock_symbol" "Stock Symbol").legal_name = cd.legal_name :=
  (applyLabelField_stock env cd).2.2.1

theorem alf_stock_operating (env : ScrapeEnv) (cd : CompanyData) :
    (applyLabelField env cd "stock_symbol" "Stock Symbol").operating_status =
      cd.operating_status := (applyLabelField_stock env cd).2.2.2.1

theorem alf_stock_funding (env : ScrapeEnv) (cd : CompanyData) :
    (applyLabelField env cd "stock_symbol" "Stock Symbol").funding_info = cd.funding_info :=
  (applyLabelField_stock env cd).2.2.2.2

theorem alf_legal_legal (env : ScrapeEnv) (cd : CompanyData) :
    (applyLabelField env cd "legal_name" "Legal Name").legal_name =
      orKeep (labelValueOf env "Legal Name") cd.legal_name :=
  (applyLabelField_legal env cd).1

theorem alf_legal_year (env : ScrapeEnv) (cd : CompanyData) :
    (applyLabelField env cd "legal_name" "Legal Name").year_founded = cd.year_founded :=
  (applyLabelField_legal env cd).2.1

theorem alf_legal_stock (env : ScrapeEnv) (cd : CompanyData) :
    (applyLabelField env cd "legal_name" "Legal Name").stock_symbol = cd.stock_symbol :=
  (applyLabelField_legal env cd).2.2.1

theorem alf_legal_operating (env : ScrapeEnv) (cd : CompanyData) :
    (applyLabelField env cd "legal_name" "Legal Name").operating_status =
      cd.operating_status := (applyLabelField_legal env cd).2.2.2.1

theorem alf_legal_funding (env : ScrapeEnv) (cd : CompanyData) :
    (applyLabelField env cd "legal_name" "Legal Name").funding_info = cd.funding_info :=
  (applyLabelField_legal env cd).2.2.2.2

theorem alf_operating_operating (env : ScrapeEnv) (cd : CompanyData) :
    (applyLabelField env cd "operating_status" "Operating Status").operating_status =
      orKeep (labelValueOf env "Operating Status") cd.operating_status :=
  (applyLabelField_operating env cd).1

theorem alf_operating_year (env : ScrapeEnv) (cd : CompanyData) :
    (applyLabelField env cd "operating_status" "Operating Status").year_founded =
      cd.year_founded := (applyLabelField_operating env cd).2.1

theorem alf_operating_stock (env : ScrapeEnv) (cd : CompanyData) :
    (applyLabelField env cd "operating_status" "Operating Status").stock_symbol =
      cd.stock_symbol := (applyLabelField_operating env cd).2.2.1

theorem alf_operating_legal (env : ScrapeEnv) (cd : CompanyData) :
    (applyLabelField env cd "operating_status" "Operating Status").legal_name =
      cd.legal_name := (applyLabelField_operating env cd).2.2.2.1

theorem alf_operating_funding (env : ScrapeEnv) (cd : CompanyData) :
    (applyLabelField env cd "operating_status" "Operating Status").funding_info =
      cd.funding_info := (applyLabelField_operating env cd).2.2.2.2

/-! ### Computation rules for `scrape_company_data` -/

/-- The record assembled on the success path. -/
def scrapeRecordOf (env : ScrapeEnv) (name : String) : CompanyData :=
  applyFunding env
    (labelFieldPairs.foldl (fun c p => applyLabelField env c p.1 p.2)
      (numericFieldPairs.foldl (fun c p => applyNumericField env c p.1 p.2)
        (field_mapping.foldl (fun c p => applySvgField env c p.1 p.2)
          (applyDescription env (CompanyData.mkDefault name)))))

theorem scrape_none_of_name_none (env : ScrapeEnv) (hc : env.clean_name = none) :
    scrape_company_data env = none := by
  simp only [scrape_company_data, hc]

theorem scrape_none_of_name_empty (env : ScrapeEnv) (hc : env.clean_name = some "") :
    scrape_company_data env = none := by
  simp only [scrape_company_data, hc]
  exact if_pos rfl

theorem scrape_none_of_nav (env : ScrapeEnv) (name : String)
    (hc : env.clean_name = some name) (hn : (name == "") = false)
    (ho : env.nav_ok = false) :
    scrape_company_data env = none := by
  simp only [scrape_company_data, hc, hn, Bool.false_eq_true, if_false, ho, Bool.not_false,
    if_true]

theorem scrape_eq_some (env : ScrapeEnv) (name : String)
    (hc : env.clean_name = some name) (hn : (name == "") = false)
    (ho : env.nav_ok = true) :
    scrape_company_data env = some (scrapeRecordOf env name) := by
  simp only [scrape_company_data, hc, hn, Bool.false_eq_true, if_false, ho, Bool.not_true]
  rfl

/-- The assembled record carries exactly the extracted name. -/
theorem scrapeRecordOf_name (env : ScrapeEnv) (name : String) :
    (scrapeRecordOf env name).name = name := by
  simp only [scrapeRecordOf, field_mapping, numericFieldPairs, labelFieldPairs, List.foldl,
    applyFunding_name, applyLabelField_name, applyNumericField_name, applySvgField_name,
    applyDescription_name]
  rfl

/-- The label-loop fields of the assembled record. -/
theorem scrapeRecordOf_fields (env : ScrapeEnv) (name : String) :
    (scrapeRecordOf env name).year_founded = yearFoundedOf env ∧
    (scrapeRecordOf env name).stock_symbol = labelValueOf env "Stock Symbol" ∧
    (scrapeRecordOf env name).legal_name = labelValueOf env "Legal Name" ∧
    (scrapeRecordOf env name).operating_status = labelValueOf env "Operating Status" ∧
    (scrapeRecordOf env name).funding_info = fundingInfoOf env := by
  simp only [scrapeRecordOf, field_mapping, numericFieldPairs, labelFieldPairs, List.foldl,
    applyFunding_year, applyFunding_stock, applyFunding_legal, applyFunding_operating,
    applyFunding_fundingInfo,
    alf_operating_year, alf_operating_stock, alf_operating_legal, alf_operating_operating,
    alf_operating_funding,
    alf_legal_year, alf_legal_stock, alf_legal_legal, alf_legal_operating, alf_legal_funding,
    alf_stock_year, alf_stock_stock, alf_stock_legal, alf_stock_operating, alf_stock_funding,
    alf_founded_year, alf_founded_stock, alf_founded_legal, alf_founded_operating,
    alf_founded_funding,
    applyNumericField_year, applyNumericField_stock, applyNumericField_legal,
    applyNumericField_operating, applyNumericField_funding,
    applySvgField_year, applySvgField_stock, applySvgField_legal, applySvgField_operating,
    applySvgField_funding,
    applyDescription_year, applyDescription_stock, applyDescription_legal,
    applyDescription_operating, applyDescription_funding,
    CompanyData.mkDefault, orKeep_none]
  exact ⟨trivial, trivial, trivial, trivial, trivial⟩

/-! ### Claim C8 -/

/-- Claim C8: the record assembler returns absent exactly when no truthy
company name can be extracted or the pass itself aborts (the secondary
navigation fails); every record it returns carries the extracted, non-empty
name; `name` is the only mandatory field and every other field of a fresh
record defaults to absent, which is distinct from zero and from the empty
string. -/
theorem c8_theorem :
    (∀ env : ScrapeEnv,
      (scrape_company_data env = none ↔
        env.clean_name = none ∨ env.clean_name = some "" ∨ env.nav_ok = false)) ∧
    (∀ (env : ScrapeEnv) (cd : CompanyData),
      scrape_company_data env = some cd →
      env.clean_name = some cd.name ∧ cd.name ≠ "") ∧
    (∀ n : String,
      (CompanyData.mkDefault n).name = n ∧
      (CompanyData.mkDefault n).about = none ∧
      (CompanyData.mkDefault n).quantum_general = none ∧
      (CompanyData.mkDefault n).quantum_computing = none ∧
      (CompanyData.mkDefault n).bis_list = none ∧
      (CompanyData.mkDefault n).qedc_list = none ∧
      (CompanyData.mkDefault n).total_funding_cny = none ∧
      (CompanyData.mkDefault n).total_funding_usd = none ∧
      (CompanyData.mkDefault n).funding_info = none ∧
      (CompanyData.mkDefault n).last_funding_type = none ∧
      (CompanyData.mkDefault n).location = none ∧
      (CompanyData.mkDefault n).employee_count = none ∧
      (CompanyData.mkDefault n).company_type = none ∧
      (CompanyData.mkDefault n).website = none ∧
      (CompanyData.mkDefault n).year_founded = none ∧
      (CompanyData.mkDefault n).ranking = none ∧
      (CompanyData.mkDefault n).acquisitions_count = none ∧
      (CompanyData.mkDefault n).investments_count = none ∧
      (CompanyData.mkDefault n).exits_count = none ∧
      (CompanyData.mkDefault n).stock_symbol = none ∧
      (CompanyData.mkDefault n).legal_name = none ∧
      (CompanyData.mkDefault n).operating_status = none ∧
      (CompanyData.mkDefault n).notes = none) ∧
    ((none : Option ℤ) ≠ some 0 ∧ (none : Option String) ≠ some "" ∧
      (none : Option ℚ) ≠ some 0) := by
  refine ⟨?_, ?_, ?_, ?_⟩
  · intro env
    constructor
    · intro h
      cases hc : env.clean_name with
      | none => exact Or.inl rfl
      | some name =>
        by_cases hn : (name == "") = true
        · have hname : name = "" := by simpa using hn
          subst hname
          exact Or.inr (Or.inl rfl)
        · have hn' : (name == "") = false := Bool.eq_false_iff.mpr hn
          cases ho : env.nav_ok with
          | false => exact Or.inr (Or.inr rfl)
          | true =>
            rw [scrape_eq_some env name hc hn' ho] at h
            exact absurd h (by simp)
    · intro h
      rcases h with hc | hc | ho
      · exact scrape_none_of_name_none env hc
      · exact scrape_none_of_name_empty env hc
      · cases hc : env.clean_name with
        | none => exact scrape_none_of_name_none env hc
        | some name =>
          by_cases hn : (name == "") = true
          · have hname : name = "" := by simpa using hn
            subst hname
            exact scrape_none_of_name_empty env hc
          · exact scrape_none_of_nav env name hc (Bool.eq_false_iff.mpr hn) ho
  · intro env cd h
    cases hc : env.clean_name with
    | none =>
      rw [scrape_none_of_name_none env hc] at h
      exact absurd h (by simp)
    | some name =>
      by_cases hn : (name == "") = true
      · have hname : name = "" := by simpa using hn
        subst hname
        rw [scrape_none_of_name_empty env hc] at h
        exact absurd h (by simp)
      · have hn' : (name == "") = false := Bool.eq_false_iff.mpr hn
        cases ho : env.nav_ok with
        | false =>
          rw [scrape_none_of_nav env name hc hn' ho] at h
          exact absurd h (by simp)
        | true =>
          rw [scrape_eq_some env name hc hn' ho] at h
          have hcd := Option.some.inj h
          constructor
          · rw [← hcd, scrapeRecordOf_name]
          · rw [← hcd, scrapeRecordOf_name]
            simpa using hn
  · intro n
    exact ⟨rfl, rfl, rfl, rfl, rfl, rfl, rfl, rfl, rfl, rfl, rfl, rfl, rfl, rfl, rfl, rfl,
      rfl, rfl, rfl, rfl, rfl, rfl, rfl⟩
  · exact ⟨fun h => Option.noConfusion h, fun h => Option.noConfusion h,
      fun h => Option.noConfusion h⟩

/-- A page with only a name: every extractor finds nothing, navigation
succeeds. -/
def c8Env : ScrapeEnv :=
  ⟨some "TestCo", none, fun _ => none, none, fun _ => none, fun _ => none, none, true⟩

/-- Claim C8, witness: the theorem applied to a name-only page and to a page
with an empty extracted name. -/
theorem c8_witness :
    scrape_company_data c8Env = some (scrapeRecordOf c8Env "TestCo") ∧
    c8Env.clean_name = some (scrapeRecordOf c8Env "TestCo").name ∧
    (scrapeRecordOf c8Env "TestCo").name ≠ "" ∧
    scrape_company_data { c8Env with clean_name := some "" } = none := by
  have h1 := scrape_eq_some c8Env "TestCo" rfl (by decide) rfl
  have h2 := c8_theorem.2.1 c8Env (scrapeRecordOf c8Env "TestCo") h1
  exact ⟨h1, h2.1, h2.2, (c8_theorem.1 _).mpr (Or.inr (Or.inl rfl))⟩

/-! ### Claim C9 -/

/-- Claim C9: for every record the assembler returns, `year_founded` equals
the trailing-year parse of the truthy founded-date extraction (absent when
the field is missing or its trailing token does not parse as an integer —
never zero), and assembly of the remaining label fields and the funding info
is unaffected: each equals its own extraction result regardless of the
founded-date outcome. -/
theorem c9_theorem (env : ScrapeEnv) (cd : CompanyData)
    (h : scrape_company_data env = some cd) :
    cd.year_founded = yearFoundedOf env ∧
    (labelValueOf env "Founded Date" = none → cd.year_founded = none) ∧
    (∀ v, labelValueOf env "Founded Date" = some v → foundedYearParse v = none →
      cd.year_founded = none) ∧
    (∀ v y, labelValueOf env "Founded Date" = some v → foundedYearParse v = some y →
      cd.year_founded = some y) ∧
    cd.stock_symbol = labelValueOf env "Stock Symbol" ∧
    cd.legal_name = labelValueOf env "Legal Name" ∧
    cd.operating_status = labelValueOf env "Operating Status" ∧
    cd.funding_info = fundingInfoOf env := by
  have hy : cd.year_founded = yearFoundedOf env ∧
      cd.stock_symbol = labelValueOf env "Stock Symbol" ∧
      cd.legal_name = labelValueOf env "Legal Name" ∧
      cd.operating_status = labelValueOf env "Operating Status" ∧
      cd.funding_info = fundingInfoOf env := by
    cases hc : env.clean_name with
    | none =>
      rw [scrape_none_of_name_none env hc] at h
      exact absurd h (by simp)
    | some name =>
      by_cases hn : (name == "") = true
      · have hname : name = "" := by simpa using hn
        subst hname
        rw [scrape_none_of_name_empty env hc] at h
        exact absurd h (by simp)
      · have hn' : (name == "") = false := Bool.eq_false_iff.mpr hn
        cases ho : env.nav_ok with
        | false =>
          rw [scrape_none_of_nav env name hc hn' ho] at h
          exact absurd h (by simp)
        | true =>
          rw [scrape_eq_some env name hc hn' ho] at h
          rw [← Option.some.inj h]
          exact scrapeRecordOf_fields env name
  refine ⟨hy.1, ?_, ?_, ?_, hy.2⟩
  · intro hnone
    rw [hy.1]
    unfold yearFoundedOf
    rw [hnone]
  · intro v hv hparse
    rw [hy.1]
    unfold yearFoundedOf
    rw [hv]
    exact hparse
  · intro v y hv hparse
    rw [hy.1]
    unfold yearFoundedOf
    rw [hv]
    exact hparse

/-- A page carrying a stock-symbol tooltip but no founded date: the label
query for the link-anchor selector finds an element, everything else is
missing. -/
def c9Env : ScrapeEnv :=
  ⟨some "TestCo", none, fun _ => none, none, fun _ => none,
   fun q => if q.selector == LabelSelector.linkAnchor then some ⟨some "TSLA", ""⟩ else none,
   none, true⟩

/-- Claim C9, witness: on a page with the founded date missing, the theorem
yields an absent `year_founded` while the stock symbol is still recorded. -/
theorem c9_witness :
    (scrape_company_data c9Env).map CompanyData.year_founded = some none ∧
    (scrape_company_data c9Env).map CompanyData.stock_symbol = some (some "TSLA") := by
  have hcd := scrape_eq_some c9Env "TestCo" rfl (by decide) rfl
  have h9 := c9_theorem c9Env (scrapeRecordOf c9Env "TestCo") hcd
  rw [hcd]
  constructor
  · rw [Option.map_some', h9.1]
    rfl
  · rw [Option.map_some', h9.2.2.2.2.1]
    rfl

end CB
